import Mathlib

/-!
Verification of the autoscene procedural geometry engine.

This file shallowly embeds the core of the engine in Lean 4 and proves
properties of the embedding:

* the spatial-analysis AABB helpers (`aabbOverlaps`, `computeGap`);
* the mesh output validator (`validateMeshOutput`);
* the static code validator's AST walk (`validateCode`);
* the sandbox worker: mesh buffers with doubling growth, the triangle
  emitters, the geometry generators (`box`, `lathe`, `extrudePath`,
  `grid`, `sdfMesh` with the marching-cubes tables, and the convenience
  wrappers), the seeded PRNG (`mulberry32`) and value noise, and the
  `onmessage` entry point.

Modeling conventions:

* JavaScript numbers are modeled as exact rationals (`ℚ`).  Where the
  engine relies on 32-bit integer semantics (the PRNG and the noise
  hashes) the embedding uses explicit two's-complement conversions, and
  products that exceed 53 bits of precision are rounded with `rnd53`,
  mirroring IEEE double rounding of integer values.  Float32/float64
  rounding of ordinary geometric arithmetic is not modeled.
* Division by zero yields 0 in `ℚ`; the engine only divides by values
  its own guards keep nonzero on the paths verified here.
* `Math.sqrt`, `Math.cos`, `Math.sin` and `Math.PI` are abstracted as a
  `FloatModel` parameter, since their float values are transcendental.
* Values that can be `NaN`/`±Infinity` (the validator's input arrays)
  use the dedicated type `F` with JavaScript arithmetic semantics.
-/

set_option maxHeartbeats 2000000
set_option maxRecDepth 10000

namespace Autoscene

/-! ## AABBs and spatial analysis (source: spatial module, `aabbOverlaps`, `computeGap`) -/
/-- A 3-vector of rationals, standing for a `[number, number, number]`. -/
structure Vec3 where
  x : ℚ
  y : ℚ
  z : ℚ
deriving DecidableEq

/-- `LayerMeta["bounds"]`: an axis-aligned bounding box. -/
structure Aabb where
  min : Vec3
  max : Vec3
deriving DecidableEq

/-- Axis labels, reported as single characters in the source. -/
inductive Axis where
  | X
  | Y
  | Z
deriving DecidableEq

/-- `aabbOverlaps(a, b)`: check if two AABBs overlap on all three axes.
Direct translation of the six comparisons in the source. -/
def aabbOverlaps (a b : Aabb) : Bool :=
  decide (a.min.x ≤ b.max.x) && decide (a.max.x ≥ b.min.x) &&
  decide (a.min.y ≤ b.max.y) && decide (a.max.y ≥ b.min.y) &&
  decide (a.min.z ≤ b.max.z) && decide (a.max.z ≥ b.min.z)

/-- One axis of `computeGap`: `Math.max(0, Math.max(minA - maxB, minB - maxA))`. -/
def axisSeparation (minA maxA minB maxB : ℚ) : ℚ :=
  max 0 (max (minA - maxB) (minB - maxA))

/-- `computeGap(a, b)`: per-axis separations, then the axis with the
largest positive gap (strict `>` keeps the first axis on ties). -/
def computeGap (a b : Aabb) : ℚ × Axis :=
  let gx := axisSeparation a.min.x a.max.x b.min.x b.max.x
  let gy := axisSeparation a.min.y a.max.y b.min.y b.max.y
  let gz := axisSeparation a.min.z a.max.z b.min.z b.max.z
  let best1 : ℚ × Axis := if gy > gx then (gy, Axis.Y) else (gx, Axis.X)
  if gz > best1.1 then (gz, Axis.Z) else best1

/-- The data-model invariant on an AABB: `min[i] ≤ max[i]` on each axis. -/
def AabbWF (a : Aabb) : Prop :=
  a.min.x ≤ a.max.x ∧ a.min.y ≤ a.max.y ∧ a.min.z ≤ a.max.z

instance (a : Aabb) : Decidable (AabbWF a) := by
  unfold AabbWF; infer_instance

/-- The three axis intervals of `a` and `b` all have *positive*
(nonzero-length) intersection. -/
def PosIntersection (a b : Aabb) : Prop :=
  max a.min.x b.min.x < min a.max.x b.max.x ∧
  max a.min.y b.min.y < min a.max.y b.max.y ∧
  max a.min.z b.min.z < min a.max.z b.max.z

instance (a b : Aabb) : Decidable (PosIntersection a b) := by
  unfold PosIntersection; infer_instance

/-! ## JavaScript numbers with non-finite values

The output validator inspects `Float32Array`s that may contain `NaN` or
`±Infinity`.  `F` models such a value; the arithmetic below follows
JavaScript (IEEE-754) semantics for the operations the validator uses,
with finite values kept exact in `ℚ`. -/
inductive F where
  | fin (q : ℚ)
  | nan
  | inf
  | ninf
deriving DecidableEq

/-- `Number.isFinite`. -/
def F.isFinite : F → Bool
  | .fin _ => true
  | _ => false

/-- IEEE negation. -/
def F.neg : F → F
  | .fin q => .fin (-q)
  | .nan => .nan
  | .inf => .ninf
  | .ninf => .inf

/-- IEEE addition (NaN propagates; `∞ + (−∞) = NaN`). -/
def F.add : F → F → F
  | .nan, _ => .nan
  | _, .nan => .nan
  | .inf, .ninf => .nan
  | .ninf, .inf => .nan
  | .inf, _ => .inf
  | _, .inf => .inf
  | .ninf, _ => .ninf
  | _, .ninf => .ninf
  | .fin a, .fin b => .fin (a + b)

/-- IEEE subtraction, `a − b = a + (−b)`. -/
def F.sub (a b : F) : F := a.add b.neg

/-- IEEE multiplication (NaN propagates; `0 · ∞ = NaN`). -/
def F.mul : F → F → F
  | .nan, _ => .nan
  | _, .nan => .nan
  | .fin a, .fin b => .fin (a * b)
  | .fin a, .inf => if a = 0 then .nan else if 0 < a then .inf else .ninf
  | .fin a, .ninf => if a = 0 then .nan else if 0 < a then .ninf else .inf
  | .inf, .fin b => if b = 0 then .nan else if 0 < b then .inf else .ninf
  | .ninf, .fin b => if b = 0 then .nan else if 0 < b then .ninf else .inf
  | .inf, .inf => .inf
  | .inf, .ninf => .ninf
  | .ninf, .inf => .ninf
  | .ninf, .ninf => .inf

/-- `Math.abs`. -/
def F.abs : F → F
  | .fin q => .fin |q|
  | .nan => .nan
  | .inf => .inf
  | .ninf => .inf

/-- JavaScript `<` (comparisons involving NaN are `false`). -/
def F.lt : F → F → Bool
  | .nan, _ => false
  | _, .nan => false
  | .fin a, .fin b => decide (a < b)
  | .fin _, .inf => true
  | .fin _, .ninf => false
  | .inf, _ => false
  | .ninf, .ninf => false
  | .ninf, _ => true

/-! ## Output validation (source: `outputValidation.ts`, `validateMeshOutput`) -/
/-- The slice of `GeneratedLayer` that `validateMeshOutput` reads.  The
arrays are drained `Float32Array`s, so entries may be `NaN`/`±Infinity`. -/
structure GeneratedLayer where
  meshPositions : List F
  meshColors : List F
  meshNormals : Option (List F)
  meshVertexCount : ℕ
  hasCustomNormals : Bool

/-- One validator finding.  The source pushes message strings; here each
message is represented by its tag and the numbers interpolated into it. -/
inductive Finding where
  | tooManyVertices (vc : ℕ)
  | slowVertexCount (vc : ℕ)
  | zeroVertices
  | nanPositions (n : ℕ)
  | outOfBounds (n : ℕ)
  | nanColors (n : ℕ)
  | nanNormals (n : ℕ)
  | degenerateTriangles (sample : ℕ) (estimatedTotal : Option ℕ)
deriving DecidableEq

structure MeshValidationResult where
  valid : Bool
  warnings : List Finding
  errors : List Finding

/-- `WARN_VERTEX_COUNT`. -/
def WARN_VERTEX_COUNT : ℕ := 100000

/-- `ERROR_VERTEX_COUNT`. -/
def ERROR_VERTEX_COUNT : ℕ := 500000

/-- `MAX_BOUNDS`. -/
def MAX_BOUNDS : ℚ := 1000

/-- The triangle sampled at index `t` of the degeneracy loop has squared
cross product below `1e-20` (reads past the end of the array behave as
JavaScript `undefined`, i.e. NaN in arithmetic). -/
def degenerateAt (pos : List F) (t : ℕ) : Bool :=
  let p := fun i => pos.getD i F.nan
  let base := t * 9
  let ax := (p (base + 3)).sub (p base)
  let ay := (p (base + 4)).sub (p (base + 1))
  let az := (p (base + 5)).sub (p (base + 2))
  let bx := (p (base + 6)).sub (p base)
  let by' := (p (base + 7)).sub (p (base + 1))
  let bz := (p (base + 8)).sub (p (base + 2))
  let cx := (ay.mul bz).sub (az.mul by')
  let cy := (az.mul bx).sub (ax.mul bz)
  let cz := (ax.mul by').sub (ay.mul bx)
  let area2 := ((cx.mul cx).add (cy.mul cy)).add (cz.mul cz)
  area2.lt (.fin (1 / 10 ^ 20))

/-- `validateMeshOutput(layer)`: direct translation of the source.  The
degeneracy loop (`for (t = 0; t < triCount; t += step)`) is expressed as
a count over `t < triCount` with `t % step = 0`; when `triCount = 0` the
JavaScript loop body never runs (`step` is `NaN`), matching the
`triCount = 0` branch here. -/
def validateMeshOutput (layer : GeneratedLayer) : MeshValidationResult :=
  let vc := layer.meshVertexCount
  let countErrors : List Finding :=
    if ERROR_VERTEX_COUNT ≤ vc then [.tooManyVertices vc] else []
  let countWarnings : List Finding :=
    if ERROR_VERTEX_COUNT ≤ vc then []
    else if WARN_VERTEX_COUNT ≤ vc then [.slowVertexCount vc] else []
  if vc = 0 then
    { valid := true, warnings := countWarnings ++ [.zeroVertices],
      errors := countErrors }
  else
    let pos := fun i => layer.meshPositions.getD i F.nan
    let nanPositions := (List.range (vc * 3)).countP fun i => !(pos i).isFinite
    let outOfBounds := (List.range (vc * 3)).countP fun i =>
      (pos i).isFinite && (F.fin MAX_BOUNDS).lt (pos i).abs
    let nanErrors : List Finding :=
      if 0 < nanPositions then [.nanPositions nanPositions] else []
    let boundsWarnings : List Finding :=
      if 0 < outOfBounds then [.outOfBounds outOfBounds] else []
    let nanColors := (List.range (vc * 3)).countP fun i =>
      !(layer.meshColors.getD i F.nan).isFinite
    let colorWarnings : List Finding :=
      if 0 < nanColors then [.nanColors nanColors] else []
    let normalWarnings : List Finding :=
      match layer.hasCustomNormals, layer.meshNormals with
      | true, some normals =>
        let nanNormals := (List.range (vc * 3)).countP fun i =>
          !(normals.getD i F.nan).isFinite
        if 0 < nanNormals then [.nanNormals nanNormals] else []
      | _, _ => []
    let triCount := vc / 3
    let degWarnings : List Finding :=
      if triCount = 0 then []
      else
        let sampleSize := Nat.min triCount 1000
        let step := Nat.max 1 (triCount / sampleSize)
        let degenerateCount := (List.range triCount).countP fun t =>
          decide (t % step = 0) && degenerateAt layer.meshPositions t
        if 0 < degenerateCount then
          [.degenerateTriangles degenerateCount
            (if 1 < step then some (degenerateCount * step) else none)]
        else []
    let errors := countErrors ++ nanErrors
    { valid := decide (errors.length = 0),
      warnings := countWarnings ++ boundsWarnings ++ colorWarnings ++
        normalWarnings ++ degWarnings,
      errors := errors }

/-! ## Static code validation (source: `validate.ts`, `validateCode`)

`validateCode` first parses the source with acorn (an external library;
a parse failure returns `valid = false` directly) and then walks the
resulting AST.  The embedding models the post-parse AST: a node has a
kind (identifier with its name, literal with its optional string value,
dynamic-import expression, or anything else) and a list of child nodes,
and the walk visits a node before its children, with the children one
level deeper. -/
/-- `BLOCKED_IDENTIFIERS`: the 27 globals rejected by the validator. -/
def BLOCKED_IDENTIFIERS : List String :=
  ["fetch", "XMLHttpRequest", "Worker", "eval", "Function", "import",
   "require", "globalThis", "window", "document", "self", "postMessage",
   "importScripts", "SharedArrayBuffer", "Atomics", "WebSocket",
   "EventSource", "navigator", "location", "localStorage",
   "sessionStorage", "indexedDB", "crypto", "setTimeout", "setInterval",
   "requestAnimationFrame"]

/-- `MAX_AST_DEPTH`. -/
def MAX_AST_DEPTH : ℕ := 64

/-- The kind of an AST node, as far as the validator can distinguish. -/
inductive NodeKind where
  | ident (name : String)
  | lit (strVal : Option String)
  | importExpr
  | other
deriving DecidableEq

/-- An AST node: a kind plus child nodes (the node-valued properties the
walker recurses into). -/
inductive AstNode where
  | node (kind : NodeKind) (children : List AstNode)

/-- A violation recorded by the walker's `visit` callback. -/
inductive Violation where
  | depthExceeded
  | blockedIdent (name : String)
  | urlLiteral
  | dynamicImport
deriving DecidableEq

/-- The regex `^data:|^blob:|^https?:`. -/
def isBlockedUrl (s : String) : Bool :=
  s.startsWith "data:" || s.startsWith "blob:" ||
    s.startsWith "http:" || s.startsWith "https:"

/-- The `visit` callback of `validateCode`: depth check, then blocked
identifiers, then URL string literals, then dynamic `import()`. -/
def checkNode (depth : ℕ) (k : NodeKind) : Option Violation :=
  if MAX_AST_DEPTH < depth then some .depthExceeded
  else
    match k with
    | .ident name =>
      if name ∈ BLOCKED_IDENTIFIERS then some (.blockedIdent name) else none
    | .lit (some s) => if isBlockedUrl s then some .urlLiteral else none
    | .lit none => none
    | .importExpr => some .dynamicImport
    | .other => none

mutual

/-- `walkAst` threading the first violation: visit the node at `d`, then
its children at `d + 1`. -/
def walkCheck : AstNode → ℕ → Option Violation
  | .node k cs, d =>
    match checkNode d k with
    | some v => some v
    | none => walkCheckList cs (d + 1)

/-- Walk a list of sibling nodes, keeping the first violation. -/
def walkCheckList : List AstNode → ℕ → Option Violation
  | [], _ => none
  | c :: cs, d =>
    match walkCheck c d with
    | some v => some v
    | none => walkCheckList cs d

end

/-- The `valid` field computed by `validateCode` for a source that
parsed: `true` iff the walk records no violation. -/
def validateAst (root : AstNode) : Bool :=
  (walkCheck root 0).isNone

/-- What the claim says makes a single node bad, at its nesting depth. -/
def BadNode (depth : ℕ) (k : NodeKind) : Prop :=
  MAX_AST_DEPTH < depth ∨
    match k with
    | .ident name => name ∈ BLOCKED_IDENTIFIERS
    | .lit (some s) => isBlockedUrl s = true
    | .lit none => False
    | .importExpr => True
    | .other => False

/-- The AST contains a bad node, where the root sits at depth `d`. -/
inductive ContainsBad : ℕ → AstNode → Prop where
  | here {d : ℕ} {k : NodeKind} {cs : List AstNode} :
      BadNode d k → ContainsBad d (.node k cs)
  | child {d : ℕ} {k : NodeKind} {cs : List AstNode} {c : AstNode} :
      c ∈ cs → ContainsBad (d + 1) c → ContainsBad d (.node k cs)

/-! ## The sandbox worker: mesh buffers and emitters (source: `WORKER_SOURCE`)

The worker's mutable globals `_meshCap`, `_meshCount`, `_meshPositions`,
`_meshColors`, `_meshNormals`, `_hasCustomNormals` become the fields of
`MeshState`.  A `Float32Array` of capacity `cap * 3` is modeled as a
list of exactly that length (entries exact in `ℚ`). -/
/-- Stand-in for `Math.sqrt`, `Math.cos`, `Math.sin` and `Math.PI`,
whose float values are transcendental. -/
structure FloatModel where
  sqrt : ℚ → ℚ
  cos : ℚ → ℚ
  sin : ℚ → ℚ
  pi : ℚ

/-- `Math.sqrt(q) || 1` — the worker's guard against a zero length. -/
def sqrtOr1 (fm : FloatModel) (q : ℚ) : ℚ :=
  if fm.sqrt q = 0 then 1 else fm.sqrt q

/-- A concrete float model for evaluating counterexamples (the values of
`cos`/`sin`/`pi` never influence the properties evaluated with it). -/
def fmTriv : FloatModel :=
  { sqrt := fun q => if q ≤ 0 then 0 else 1, cos := fun _ => 1,
    sin := fun _ => 0, pi := 355 / 113 }

/-- The worker's mesh buffer globals. -/
structure MeshState where
  meshCap : ℕ
  meshCount : ℕ
  meshPositions : List ℚ
  meshColors : List ℚ
  meshNormals : List ℚ
  hasCustomNormals : Bool

/-- `new Float32Array(n)` followed by `.set(old)`: the old contents,
zero-padded to length `n`. -/
def padTo (l : List ℚ) (n : ℕ) : List ℚ :=
  l ++ List.replicate (n - l.length) 0

/-- `_growMesh()`: double the capacity of all three buffers. -/
def growMesh (m : MeshState) : MeshState :=
  { m with
    meshCap := m.meshCap * 2,
    meshPositions := padTo m.meshPositions (m.meshCap * 2 * 3),
    meshColors := padTo m.meshColors (m.meshCap * 2 * 3),
    meshNormals := padTo m.meshNormals (m.meshCap * 2 * 3) }

/-- Write consecutive values `vs` into `l` starting at index `i`
(`arr[i] = v1; arr[i+1] = v2; …`). -/
def writeSeq : List ℚ → ℕ → List ℚ → List ℚ
  | l, _, [] => l
  | l, i, v :: vs => writeSeq (l.set i v) (i + 1) vs

/-- `emitTriangle(x1,…,z3, r,g,b)`. -/
def emitTriangle (x1 y1 z1 x2 y2 z2 x3 y3 z3 r g b : ℚ)
    (m : MeshState) : MeshState :=
  let m := if m.meshCap < m.meshCount + 3 then growMesh m else m
  let i := m.meshCount * 3
  { m with
    meshPositions :=
      writeSeq m.meshPositions i [x1, y1, z1, x2, y2, z2, x3, y3, z3],
    meshColors := writeSeq m.meshColors i [r, g, b, r, g, b, r, g, b],
    meshCount := m.meshCount + 3 }

/-- `emitQuad`: two triangles `(p1,p2,p3)` and `(p1,p3,p4)`. -/
def emitQuad (x1 y1 z1 x2 y2 z2 x3 y3 z3 x4 y4 z4 r g b : ℚ)
    (m : MeshState) : MeshState :=
  emitTriangle x1 y1 z1 x3 y3 z3 x4 y4 z4 r g b
    (emitTriangle x1 y1 z1 x2 y2 z2 x3 y3 z3 r g b m)

/-- `_emitSmoothTriangle`: positions, per-vertex normals, uniform color;
sets `_hasCustomNormals`. -/
def emitSmoothTriangle (x1 y1 z1 nx1 ny1 nz1 x2 y2 z2 nx2 ny2 nz2
    x3 y3 z3 nx3 ny3 nz3 r g b : ℚ) (m : MeshState) : MeshState :=
  let m := if m.meshCap < m.meshCount + 3 then growMesh m else m
  let i := m.meshCount * 3
  { m with
    hasCustomNormals := true,
    meshPositions :=
      writeSeq m.meshPositions i [x1, y1, z1, x2, y2, z2, x3, y3, z3],
    meshNormals :=
      writeSeq m.meshNormals i [nx1, ny1, nz1, nx2, ny2, nz2, nx3, ny3, nz3],
    meshColors := writeSeq m.meshColors i [r, g, b, r, g, b, r, g, b],
    meshCount := m.meshCount + 3 }

/-- `box(cx,cy,cz, sx,sy,sz, r,g,b)`: six quads. -/
def box (cx cy cz sx sy sz r g b : ℚ) (m : MeshState) : MeshState :=
  let hx := sx / 2
  let hy := sy / 2
  let hz := sz / 2
  let x0 := cx - hx
  let x1 := cx + hx
  let y0 := cy - hy
  let y1 := cy + hy
  let z0 := cz - hz
  let z1 := cz + hz
  let m := emitQuad x0 y0 z1 x1 y0 z1 x1 y1 z1 x0 y1 z1 r g b m
  let m := emitQuad x1 y0 z0 x0 y0 z0 x0 y1 z0 x1 y1 z0 r g b m
  let m := emitQuad x1 y0 z1 x1 y0 z0 x1 y1 z0 x1 y1 z1 r g b m
  let m := emitQuad x0 y0 z0 x0 y0 z1 x0 y1 z1 x0 y1 z0 r g b m
  let m := emitQuad x0 y1 z1 x1 y1 z1 x1 y1 z0 x0 y1 z0 r g b m
  emitQuad x0 y0 z0 x1 y0 z0 x1 y0 z1 x0 y0 z1 r g b m

/-- The body of `lathe`'s inner loop over angular segments: emit the
ring quad, or a cap triangle when one of the two radii is zero. -/
def latheSegStep (fm : FloatModel) (cx cy cz r g b angleOffset : ℚ)
    (S : ℕ) (r0 y0 r1 y1 : ℚ) (m : MeshState) (s : ℕ) : MeshState :=
  let cosA := fun (i : ℕ) => fm.cos (angleOffset + 2 * fm.pi * i / S)
  let sinA := fun (i : ℕ) => fm.sin (angleOffset + 2 * fm.pi * i / S)
  let bx0 := cx + r0 * cosA s
  let bz0 := cz + r0 * sinA s
  let bx1 := cx + r0 * cosA (s + 1)
  let bz1 := cz + r0 * sinA (s + 1)
  let tx0 := cx + r1 * cosA s
  let tz0 := cz + r1 * sinA s
  let tx1 := cx + r1 * cosA (s + 1)
  let tz1 := cz + r1 * sinA (s + 1)
  if r0 = 0 then
    emitTriangle cx y0 cz tx1 y1 tz1 tx0 y1 tz0 r g b m
  else if r1 = 0 then
    emitTriangle bx0 y0 bz0 bx1 y0 bz1 cx y1 cz r g b m
  else
    emitQuad bx0 y0 bz0 bx1 y0 bz1 tx1 y1 tz1 tx0 y1 tz0 r g b m

/-- The body of `lathe`'s outer loop over adjacent profile pairs. -/
def lathePairStep (fm : FloatModel) (cx cy cz r g b angleOffset : ℚ)
    (S : ℕ) (profile : List (ℚ × ℚ)) (m : MeshState) (p : ℕ) : MeshState :=
  let r0 := (profile.getD p (0, 0)).1
  let y0 := cy + (profile.getD p (0, 0)).2
  let r1 := (profile.getD (p + 1) (0, 0)).1
  let y1 := cy + (profile.getD (p + 1) (0, 0)).2
  (List.range S).foldl
    (latheSegStep fm cx cy cz r g b angleOffset S r0 y0 r1 y1) m

/-- `lathe(cx,cy,cz, profile, segments, r,g,b, angleOffset)`: surface of
revolution.  `segments || 16` and `angleOffset || 0` become the `0`
defaults. -/
def lathe (fm : FloatModel) (cx cy cz : ℚ) (profile : List (ℚ × ℚ))
    (segments : ℕ) (r g b angleOffset : ℚ) (m : MeshState) : MeshState :=
  let S := if segments = 0 then 16 else segments
  let pLen := profile.length
  if pLen < 2 then m
  else
    (List.range (pLen - 1)).foldl
      (lathePairStep fm cx cy cz r g b angleOffset S profile) m

/-- A 3-vector as a nested pair (a JavaScript `[x, y, z]`). -/
abbrev Q3 := ℚ × ℚ × ℚ

/-- Cross product, as written out in `extrudePath`. -/
def cross3 (a n : Q3) : Q3 :=
  (a.2.1 * n.2.2 - a.2.2 * n.2.1,
   a.2.2 * n.1 - a.1 * n.2.2,
   a.1 * n.2.1 - a.2.1 * n.1)

/-- One step of the double-reflection rotation-minimizing frame: from
frame `(normals[i-1], binormals[i-1])` to frame `i`. -/
def rmfStep (pathPt tangent : ℕ → Q3) (prev : Q3 × Q3) (i : ℕ) : Q3 × Q3 :=
  let ti := tangent (i - 1)
  let tj := tangent i
  let pi' := pathPt (i - 1)
  let pj := pathPt i
  let vx := pj.1 - pi'.1
  let vy := pj.2.1 - pi'.2.1
  let vz := pj.2.2 - pi'.2.2
  let c1 := vx * vx + vy * vy + vz * vz
  if c1 < 1 / 10 ^ 10 then prev
  else
    let nPrev := prev.1
    let dot1n := (vx * nPrev.1 + vy * nPrev.2.1 + vz * nPrev.2.2) / c1 * 2
    let rn : Q3 :=
      (nPrev.1 - dot1n * vx, nPrev.2.1 - dot1n * vy, nPrev.2.2 - dot1n * vz)
    let dot1t := (vx * ti.1 + vy * ti.2.1 + vz * ti.2.2) / c1 * 2
    let rt : Q3 :=
      (ti.1 - dot1t * vx, ti.2.1 - dot1t * vy, ti.2.2 - dot1t * vz)
    let v2x := tj.1 - rt.1
    let v2y := tj.2.1 - rt.2.1
    let v2z := tj.2.2 - rt.2.2
    let c2 := v2x * v2x + v2y * v2y + v2z * v2z
    let ni : Q3 :=
      if c2 < 1 / 10 ^ 10 then rn
      else
        let dot2 := (v2x * rn.1 + v2y * rn.2.1 + v2z * rn.2.2) / c2 * 2
        (rn.1 - dot2 * v2x, rn.2.1 - dot2 * v2y, rn.2.2 - dot2 * v2z)
    (ni, cross3 tj ni)

/-- The frame at path index `i`, propagated from the initial frame. -/
def rmfFrame (pathPt tangent : ℕ → Q3) (f0 : Q3 × Q3) : ℕ → Q3 × Q3
  | 0 => f0
  | i + 1 => rmfStep pathPt tangent (rmfFrame pathPt tangent f0 i) (i + 1)

/-- `extrudePath(profile, path, closed, r,g,b)`: sweep a 2D profile
along a 3D path using rotation-minimizing frames. -/
def extrudePath (fm : FloatModel) (profile : List (ℚ × ℚ))
    (path : List Q3) (closed : Bool) (r g b : ℚ) (m : MeshState) :
    MeshState :=
  let pLen := profile.length
  let pathLen := path.length
  if pLen < 2 ∨ pathLen < 2 then m
  else
    let pt := fun (i : ℕ) => path.getD i (0, 0, 0)
    let tangent := fun (i : ℕ) =>
      let prev := if 0 < i then pt (i - 1) else pt i
      let next := if i < pathLen - 1 then pt (i + 1) else pt i
      let dx := next.1 - prev.1
      let dy := next.2.1 - prev.2.1
      let dz := next.2.2 - prev.2.2
      let len := sqrtOr1 fm (dx * dx + dy * dy + dz * dz)
      ((dx / len, dy / len, dz / len) : Q3)
    let t0 := tangent 0
    let arbx : ℚ := if |t0.1| < 9 / 10 then 1 else 0
    let arby : ℚ := if |t0.1| < 9 / 10 then 0 else 1
    let nx := -t0.2.2 * arby
    let ny := t0.2.2 * arbx
    let nz := t0.1 * arby - t0.2.1 * arbx
    let nLen := sqrtOr1 fm (nx * nx + ny * ny + nz * nz)
    let n0 : Q3 := (nx / nLen, ny / nLen, nz / nLen)
    let f0 : Q3 × Q3 := (n0, cross3 t0 n0)
    let frame := rmfFrame pt tangent f0
    let ring := fun (i j : ℕ) =>
      let p := pt i
      let n := (frame i).1
      let bn := (frame i).2
      let px := (profile.getD j (0, 0)).1
      let py := (profile.getD j (0, 0)).2
      ((p.1 + px * n.1 + py * bn.1,
        p.2.1 + px * n.2.1 + py * bn.2.1,
        p.2.2 + px * n.2.2 + py * bn.2.2) : Q3)
    (List.range (pathLen - 1)).foldl
      (fun m i =>
        let jMax := if closed then pLen else pLen - 1
        (List.range jMax).foldl
          (fun m j =>
            let j1 := (j + 1) % pLen
            let a := ring i j
            let b' := ring i j1
            let c := ring (i + 1) j1
            let d := ring (i + 1) j
            emitQuad a.1 a.2.1 a.2.2 b'.1 b'.2.1 b'.2.2 c.1 c.2.1 c.2.2
              d.1 d.2.1 d.2.2 r g b m)
          m)
      m

/-- `grid(x0,z0, x1,z1, resX,resZ, heightFn, colorFn)`: heightfield of
quads (the `colorFn ? … : [0.5,0.5,0.5]` default is the `none` case). -/
def grid (x0 z0 x1 z1 : ℚ) (resX resZ : ℕ) (heightFn : ℚ → ℚ → ℚ)
    (colorFn : Option (ℚ → ℚ → Q3)) (m : MeshState) : MeshState :=
  let stepX := (x1 - x0) / resX
  let stepZ := (z1 - z0) / resZ
  let heights := fun (i j : ℕ) => heightFn (x0 + i * stepX) (z0 + j * stepZ)
  (List.range resX).foldl
    (fun (m : MeshState) (i : ℕ) =>
      (List.range resZ).foldl
        (fun (m : MeshState) (j : ℕ) =>
          let px := x0 + i * stepX
          let pz := z0 + j * stepZ
          let px1 := px + stepX
          let pz1 := pz + stepZ
          let h00 := heights i j
          let h10 := heights (i + 1) j
          let h11 := heights (i + 1) (j + 1)
          let h01 := heights i (j + 1)
          let col : Q3 :=
            match colorFn with
            | some f => f (px + stepX / 2) (pz + stepZ / 2)
            | none => (1 / 2, 1 / 2, 1 / 2)
          emitQuad px h00 pz px h01 pz1 px1 h11 pz1 px1 h10 pz
            col.1 col.2.1 col.2.2 m)
        m)
    m

/-- The worker's initial mesh state (`_meshCap = 300000`, freshly
allocated zeroed buffers). -/
def initMesh : MeshState :=
  { meshCap := 300000, meshCount := 0,
    meshPositions := List.replicate 900000 0,
    meshColors := List.replicate 900000 0,
    meshNormals := List.replicate 900000 0,
    hasCustomNormals := false }

/-! ## Marching cubes (source: `sdfMesh` and its lookup tables)

`MC_EDGE_TABLE` and `MC_TRI_TABLE` are the worker's tables, shipped
verbatim. -/
/-- `MC_EDGE_TABLE`: for each of the 256 cube configurations, a 12-bit
mask of the edges crossed by the surface. -/
def MC_EDGE_TABLE : List ℕ :=
  [0x0, 0x109, 0x203, 0x30a, 0x406, 0x50f, 0x605, 0x70c,
   0x80c, 0x905, 0xa0f, 0xb06, 0xc0a, 0xd03, 0xe09, 0xf00,
   0x190, 0x99, 0x393, 0x29a, 0x596, 0x49f, 0x795, 0x69c,
   0x99c, 0x895, 0xb9f, 0xa96, 0xd9a, 0xc93, 0xf99, 0xe90,
   0x230, 0x339, 0x33, 0x13a, 0x636, 0x73f, 0x435, 0x53c,
   0xa3c, 0xb35, 0x83f, 0x936, 0xe3a, 0xf33, 0xc39, 0xd30,
   0x3a0, 0x2a9, 0x1a3, 0xaa, 0x7a6, 0x6af, 0x5a5, 0x4ac,
   0xbac, 0xaa5, 0x9af, 0x8a6, 0xfaa, 0xea3, 0xda9, 0xca0,
   0x460, 0x569, 0x663, 0x76a, 0x66, 0x16f, 0x265, 0x36c,
   0xc6c, 0xd65, 0xe6f, 0xf66, 0x86a, 0x963, 0xa69, 0xb60,
   0x5f0, 0x4f9, 0x7f3, 0x6fa, 0x1f6, 0xff, 0x3f5, 0x2fc,
   0xdfc, 0xcf5, 0xfff, 0xef6, 0x9fa, 0x8f3, 0xbf9, 0xaf0,
   0x650, 0x759, 0x453, 0x55a, 0x256, 0x35f, 0x55, 0x15c,
   0xe5c, 0xf55, 0xc5f, 0xd56, 0xa5a, 0xb53, 0x859, 0x950,
   0x7c0, 0x6c9, 0x5c3, 0x4ca, 0x3c6, 0x2cf, 0x1c5, 0xcc,
   0xfcc, 0xec5, 0xdcf, 0xcc6, 0xbca, 0xac3, 0x9c9, 0x8c0,
   0x8c0, 0x9c9, 0xac3, 0xbca, 0xcc6, 0xdcf, 0xec5, 0xfcc,
   0xcc, 0x1c5, 0x2cf, 0x3c6, 0x4ca, 0x5c3, 0x6c9, 0x7c0,
   0x950, 0x859, 0xb53, 0xa5a, 0xd56, 0xc5f, 0xf55, 0xe5c,
   0x15c, 0x55, 0x35f, 0x256, 0x55a, 0x453, 0x759, 0x650,
   0xaf0, 0xbf9, 0x8f3, 0x9fa, 0xef6, 0xfff, 0xcf5, 0xdfc,
   0x2fc, 0x3f5, 0xff, 0x1f6, 0x6fa, 0x7f3, 0x4f9, 0x5f0,
   0xb60, 0xa69, 0x963, 0x86a, 0xf66, 0xe6f, 0xd65, 0xc6c,
   0x36c, 0x265, 0x16f, 0x66, 0x76a, 0x663, 0x569, 0x460,
   0xca0, 0xda9, 0xea3, 0xfaa, 0x8a6, 0x9af, 0xaa5, 0xbac,
   0x4ac, 0x5a5, 0x6af, 0x7a6, 0xaa, 0x1a3, 0x2a9, 0x3a0,
   0xd30, 0xc39, 0xf33, 0xe3a, 0x936, 0x83f, 0xb35, 0xa3c,
   0x53c, 0x435, 0x73f, 0x636, 0x13a, 0x33, 0x339, 0x230,
   0xe90, 0xf99, 0xc93, 0xd9a, 0xa96, 0xb9f, 0x895, 0x99c,
   0x69c, 0x795, 0x49f, 0x596, 0x29a, 0x393, 0x99, 0x190,
   0xf00, 0xe09, 0xd03, 0xc0a, 0xb06, 0xa0f, 0x905, 0x80c,
   0x70c, 0x605, 0x50f, 0x406, 0x30a, 0x203, 0x109, 0x0]

/-- `MC_TRI_TABLE`: for each configuration, triangles as triples of edge
indices, terminated by `-1`. -/
def MC_TRI_TABLE : List (List ℤ) :=
  [[-1],
   [0, 8, 3, -1],
   [0, 1, 9, -1],
   [1, 8, 3, 9, 8, 1, -1],
   [1, 2, 10, -1],
   [0, 8, 3, 1, 2, 10, -1],
   [9, 2, 10, 0, 2, 9, -1],
   [2, 8, 3, 2, 10, 8, 10, 9, 8, -1],
   [3, 11, 2, -1],
   [0, 11, 2, 8, 11, 0, -1],
   [1, 9, 0, 2, 3, 11, -1],
   [1, 11, 2, 1, 9, 11, 9, 8, 11, -1],
   [3, 10, 1, 11, 10, 3, -1],
   [0, 10, 1, 0, 8, 10, 8, 11, 10, -1],
   [3, 9, 0, 3, 11, 9, 11, 10, 9, -1],
   [9, 8, 10, 10, 8, 11, -1],
   [4, 7, 8, -1],
   [4, 3, 0, 7, 3, 4, -1],
   [0, 1, 9, 8, 4, 7, -1],
   [4, 1, 9, 4, 7, 1, 7, 3, 1, -1],
   [1, 2, 10, 8, 4, 7, -1],
   [3, 4, 7, 3, 0, 4, 1, 2, 10, -1],
   [9, 2, 10, 9, 0, 2, 8, 4, 7, -1],
   [2, 10, 9, 2, 9, 7, 2, 7, 3, 7, 9, 4, -1],
   [8, 4, 7, 3, 11, 2, -1],
   [11, 4, 7, 11, 2, 4, 2, 0, 4, -1],
   [9, 0, 1, 8, 4, 7, 2, 3, 11, -1],
   [4, 7, 11, 9, 4, 11, 9, 11, 2, 9, 2, 1, -1],
   [3, 10, 1, 3, 11, 10, 7, 8, 4, -1],
   [1, 11, 10, 1, 4, 11, 1, 0, 4, 7, 11, 4, -1],
   [4, 7, 8, 9, 0, 11, 9, 11, 10, 11, 0, 3, -1],
   [4, 7, 11, 4, 11, 9, 9, 11, 10, -1],
   [9, 5, 4, -1],
   [9, 5, 4, 0, 8, 3, -1],
   [0, 5, 4, 1, 5, 0, -1],
   [8, 5, 4, 8, 3, 5, 3, 1, 5, -1],
   [1, 2, 10, 9, 5, 4, -1],
   [3, 0, 8, 1, 2, 10, 4, 9, 5, -1],
   [5, 2, 10, 5, 4, 2, 4, 0, 2, -1],
   [2, 10, 5, 3, 2, 5, 3, 5, 4, 3, 4, 8, -1],
   [9, 5, 4, 2, 3, 11, -1],
   [0, 11, 2, 0, 8, 11, 4, 9, 5, -1],
   [0, 5, 4, 0, 1, 5, 2, 3, 11, -1],
   [2, 1, 5, 2, 5, 8, 2, 8, 11, 4, 8, 5, -1],
   [10, 3, 11, 10, 1, 3, 9, 5, 4, -1],
   [4, 9, 5, 0, 8, 1, 8, 10, 1, 8, 11, 10, -1],
   [5, 4, 0, 5, 0, 11, 5, 11, 10, 11, 0, 3, -1],
   [5, 4, 8, 5, 8, 10, 10, 8, 11, -1],
   [9, 7, 8, 5, 7, 9, -1],
   [9, 3, 0, 9, 5, 3, 5, 7, 3, -1],
   [0, 7, 8, 0, 1, 7, 1, 5, 7, -1],
   [1, 5, 3, 3, 5, 7, -1],
   [9, 7, 8, 9, 5, 7, 10, 1, 2, -1],
   [10, 1, 2, 9, 5, 0, 5, 3, 0, 5, 7, 3, -1],
   [8, 0, 2, 8, 2, 5, 8, 5, 7, 10, 5, 2, -1],
   [2, 10, 5, 2, 5, 3, 3, 5, 7, -1],
   [7, 9, 5, 7, 8, 9, 3, 11, 2, -1],
   [9, 5, 7, 9, 7, 2, 9, 2, 0, 2, 7, 11, -1],
   [2, 3, 11, 0, 1, 8, 1, 7, 8, 1, 5, 7, -1],
   [11, 2, 1, 11, 1, 7, 7, 1, 5, -1],
   [9, 5, 8, 8, 5, 7, 10, 1, 3, 10, 3, 11, -1],
   [5, 7, 0, 5, 0, 9, 7, 11, 0, 1, 0, 10, 11, 10, 0, -1],
   [11, 10, 0, 11, 0, 3, 10, 5, 0, 8, 0, 7, 5, 7, 0, -1],
   [11, 10, 5, 7, 11, 5, -1],
   [10, 6, 5, -1],
   [0, 8, 3, 5, 10, 6, -1],
   [9, 0, 1, 5, 10, 6, -1],
   [1, 8, 3, 1, 9, 8, 5, 10, 6, -1],
   [1, 6, 5, 2, 6, 1, -1],
   [1, 6, 5, 1, 2, 6, 3, 0, 8, -1],
   [9, 6, 5, 9, 0, 6, 0, 2, 6, -1],
   [5, 9, 8, 5, 8, 2, 5, 2, 6, 3, 2, 8, -1],
   [2, 3, 11, 10, 6, 5, -1],
   [11, 0, 8, 11, 2, 0, 10, 6, 5, -1],
   [0, 1, 9, 2, 3, 11, 5, 10, 6, -1],
   [5, 10, 6, 1, 9, 2, 9, 11, 2, 9, 8, 11, -1],
   [6, 3, 11, 6, 5, 3, 5, 1, 3, -1],
   [0, 8, 11, 0, 11, 5, 0, 5, 1, 5, 11, 6, -1],
   [3, 11, 6, 0, 3, 6, 0, 6, 5, 0, 5, 9, -1],
   [6, 5, 9, 6, 9, 11, 11, 9, 8, -1],
   [5, 10, 6, 4, 7, 8, -1],
   [4, 3, 0, 4, 7, 3, 6, 5, 10, -1],
   [1, 9, 0, 5, 10, 6, 8, 4, 7, -1],
   [10, 6, 5, 1, 9, 7, 1, 7, 3, 7, 9, 4, -1],
   [6, 1, 2, 6, 5, 1, 4, 7, 8, -1],
   [1, 2, 5, 5, 2, 6, 3, 0, 4, 3, 4, 7, -1],
   [8, 4, 7, 9, 0, 5, 0, 6, 5, 0, 2, 6, -1],
   [7, 3, 9, 7, 9, 4, 3, 2, 9, 5, 9, 6, 2, 6, 9, -1],
   [3, 11, 2, 7, 8, 4, 10, 6, 5, -1],
   [5, 10, 6, 4, 7, 2, 4, 2, 0, 2, 7, 11, -1],
   [0, 1, 9, 4, 7, 8, 2, 3, 11, 5, 10, 6, -1],
   [9, 2, 1, 9, 11, 2, 9, 4, 11, 7, 11, 4, 5, 10, 6, -1],
   [8, 4, 7, 3, 11, 5, 3, 5, 1, 5, 11, 6, -1],
   [5, 1, 11, 5, 11, 6, 1, 0, 11, 7, 11, 4, 0, 4, 11, -1],
   [0, 5, 9, 0, 6, 5, 0, 3, 6, 11, 6, 3, 8, 4, 7, -1],
   [6, 5, 9, 6, 9, 11, 4, 7, 9, 7, 11, 9, -1],
   [10, 4, 9, 6, 4, 10, -1],
   [4, 10, 6, 4, 9, 10, 0, 8, 3, -1],
   [10, 0, 1, 10, 6, 0, 6, 4, 0, -1],
   [8, 3, 1, 8, 1, 6, 8, 6, 4, 6, 1, 10, -1],
   [1, 4, 9, 1, 2, 4, 2, 6, 4, -1],
   [3, 0, 8, 1, 2, 4, 2, 6, 4, 4, 2, 9, -1],
   [0, 2, 4, 4, 2, 6, -1],
   [8, 3, 2, 8, 2, 4, 4, 2, 6, -1],
   [10, 4, 9, 10, 6, 4, 11, 2, 3, -1],
   [0, 8, 2, 2, 8, 11, 4, 9, 10, 4, 10, 6, -1],
   [3, 11, 2, 0, 1, 6, 0, 6, 4, 6, 1, 10, -1],
   [6, 4, 1, 6, 1, 10, 4, 8, 1, 2, 1, 11, 8, 11, 1, -1],
   [9, 6, 4, 9, 3, 6, 9, 1, 3, 11, 6, 3, -1],
   [8, 11, 1, 8, 1, 0, 11, 6, 1, 9, 1, 4, 6, 4, 1, -1],
   [3, 11, 6, 3, 6, 0, 0, 6, 4, -1],
   [6, 4, 8, 11, 6, 8, -1],
   [7, 10, 6, 7, 8, 10, 8, 9, 10, -1],
   [0, 7, 3, 0, 10, 7, 0, 9, 10, 6, 7, 10, -1],
   [10, 6, 7, 1, 10, 7, 1, 7, 8, 1, 8, 0, -1],
   [10, 6, 7, 10, 7, 1, 1, 7, 3, -1],
   [1, 2, 6, 1, 6, 8, 1, 8, 9, 8, 6, 7, -1],
   [2, 6, 9, 2, 9, 1, 6, 7, 9, 0, 9, 3, 7, 3, 9, -1],
   [7, 8, 0, 7, 0, 6, 6, 0, 2, -1],
   [7, 3, 2, 6, 7, 2, -1],
   [2, 3, 11, 10, 6, 8, 10, 8, 9, 8, 6, 7, -1],
   [2, 0, 7, 2, 7, 11, 0, 9, 7, 6, 7, 10, 9, 10, 7, -1],
   [1, 8, 0, 1, 7, 8, 1, 10, 7, 6, 7, 10, 2, 3, 11, -1],
   [11, 2, 1, 11, 1, 7, 10, 6, 1, 6, 7, 1, -1],
   [8, 9, 6, 8, 6, 7, 9, 1, 6, 11, 6, 3, 1, 3, 6, -1],
   [0, 9, 1, 11, 6, 7, -1],
   [7, 8, 0, 7, 0, 6, 3, 11, 0, 11, 6, 0, -1],
   [7, 11, 6, -1],
   [7, 6, 11, -1],
   [3, 0, 8, 11, 7, 6, -1],
   [0, 1, 9, 11, 7, 6, -1],
   [8, 1, 9, 8, 3, 1, 11, 7, 6, -1],
   [10, 1, 2, 6, 11, 7, -1],
   [1, 2, 10, 3, 0, 8, 6, 11, 7, -1],
   [2, 9, 0, 2, 10, 9, 6, 11, 7, -1],
   [6, 11, 7, 2, 10, 3, 10, 8, 3, 10, 9, 8, -1],
   [7, 2, 3, 6, 2, 7, -1],
   [7, 0, 8, 7, 6, 0, 6, 2, 0, -1],
   [2, 7, 6, 2, 3, 7, 0, 1, 9, -1],
   [1, 6, 2, 1, 8, 6, 1, 9, 8, 8, 7, 6, -1],
   [10, 7, 6, 10, 1, 7, 1, 3, 7, -1],
   [10, 7, 6, 1, 7, 10, 1, 8, 7, 1, 0, 8, -1],
   [0, 3, 7, 0, 7, 10, 0, 10, 9, 6, 10, 7, -1],
   [7, 6, 10, 7, 10, 8, 8, 10, 9, -1],
   [6, 8, 4, 11, 8, 6, -1],
   [3, 6, 11, 3, 0, 6, 0, 4, 6, -1],
   [8, 6, 11, 8, 4, 6, 9, 0, 1, -1],
   [9, 4, 6, 9, 6, 3, 9, 3, 1, 11, 3, 6, -1],
   [6, 8, 4, 6, 11, 8, 2, 10, 1, -1],
   [1, 2, 10, 3, 0, 11, 0, 6, 11, 0, 4, 6, -1],
   [4, 11, 8, 4, 6, 11, 0, 2, 9, 2, 10, 9, -1],
   [10, 9, 3, 10, 3, 2, 9, 4, 3, 11, 3, 6, 4, 6, 3, -1],
   [8, 2, 3, 8, 4, 2, 4, 6, 2, -1],
   [0, 4, 2, 4, 6, 2, -1],
   [1, 9, 0, 2, 3, 4, 2, 4, 6, 4, 3, 8, -1],
   [1, 9, 4, 1, 4, 2, 2, 4, 6, -1],
   [8, 1, 3, 8, 6, 1, 8, 4, 6, 6, 10, 1, -1],
   [10, 1, 0, 10, 0, 6, 6, 0, 4, -1],
   [4, 6, 3, 4, 3, 8, 6, 10, 3, 0, 3, 9, 10, 9, 3, -1],
   [10, 9, 4, 6, 10, 4, -1],
   [4, 9, 5, 7, 6, 11, -1],
   [0, 8, 3, 4, 9, 5, 11, 7, 6, -1],
   [5, 0, 1, 5, 4, 0, 7, 6, 11, -1],
   [11, 7, 6, 8, 3, 4, 3, 5, 4, 3, 1, 5, -1],
   [9, 5, 4, 10, 1, 2, 7, 6, 11, -1],
   [6, 11, 7, 1, 2, 10, 0, 8, 3, 4, 9, 5, -1],
   [7, 6, 11, 5, 4, 10, 4, 2, 10, 4, 0, 2, -1],
   [3, 4, 8, 3, 5, 4, 3, 2, 5, 10, 5, 2, 11, 7, 6, -1],
   [7, 2, 3, 7, 6, 2, 5, 4, 9, -1],
   [9, 5, 4, 0, 8, 6, 0, 6, 2, 6, 8, 7, -1],
   [3, 6, 2, 3, 7, 6, 1, 5, 0, 5, 4, 0, -1],
   [6, 2, 8, 6, 8, 7, 2, 1, 8, 4, 8, 5, 1, 5, 8, -1],
   [9, 5, 4, 10, 1, 6, 1, 7, 6, 1, 3, 7, -1],
   [1, 6, 10, 1, 7, 6, 1, 0, 7, 8, 7, 0, 9, 5, 4, -1],
   [4, 0, 10, 4, 10, 5, 0, 3, 10, 6, 10, 7, 3, 7, 10, -1],
   [7, 6, 10, 7, 10, 8, 5, 4, 10, 4, 8, 10, -1],
   [6, 9, 5, 6, 11, 9, 11, 8, 9, -1],
   [3, 6, 11, 0, 6, 3, 0, 5, 6, 0, 9, 5, -1],
   [0, 11, 8, 0, 5, 11, 0, 1, 5, 5, 6, 11, -1],
   [6, 11, 3, 6, 3, 5, 5, 3, 1, -1],
   [1, 2, 10, 9, 5, 11, 9, 11, 8, 11, 5, 6, -1],
   [0, 11, 3, 0, 6, 11, 0, 9, 6, 5, 6, 9, 1, 2, 10, -1],
   [11, 8, 5, 11, 5, 6, 8, 0, 5, 10, 5, 2, 0, 2, 5, -1],
   [6, 11, 3, 6, 3, 5, 2, 10, 3, 10, 5, 3, -1],
   [5, 8, 9, 5, 2, 8, 5, 6, 2, 3, 8, 2, -1],
   [9, 5, 6, 9, 6, 0, 0, 6, 2, -1],
   [1, 5, 8, 1, 8, 0, 5, 6, 8, 3, 8, 2, 6, 2, 8, -1],
   [1, 5, 6, 2, 1, 6, -1],
   [1, 3, 6, 1, 6, 10, 3, 8, 6, 5, 6, 9, 8, 9, 6, -1],
   [10, 1, 0, 10, 0, 6, 9, 5, 0, 5, 6, 0, -1],
   [0, 3, 8, 5, 6, 10, -1],
   [10, 5, 6, -1],
   [11, 5, 10, 7, 5, 11, -1],
   [11, 5, 10, 11, 7, 5, 8, 3, 0, -1],
   [5, 11, 7, 5, 10, 11, 1, 9, 0, -1],
   [10, 7, 5, 10, 11, 7, 9, 8, 1, 8, 3, 1, -1],
   [11, 1, 2, 11, 7, 1, 7, 5, 1, -1],
   [0, 8, 3, 1, 2, 7, 1, 7, 5, 7, 2, 11, -1],
   [9, 7, 5, 9, 2, 7, 9, 0, 2, 2, 11, 7, -1],
   [7, 5, 2, 7, 2, 11, 5, 9, 2, 3, 2, 8, 9, 8, 2, -1],
   [2, 5, 10, 2, 3, 5, 3, 7, 5, -1],
   [8, 2, 0, 8, 5, 2, 8, 7, 5, 10, 2, 5, -1],
   [9, 0, 1, 5, 10, 3, 5, 3, 7, 3, 10, 2, -1],
   [9, 8, 2, 9, 2, 1, 8, 7, 2, 10, 2, 5, 7, 5, 2, -1],
   [1, 3, 5, 3, 7, 5, -1],
   [0, 8, 7, 0, 7, 1, 1, 7, 5, -1],
   [9, 0, 3, 9, 3, 5, 5, 3, 7, -1],
   [9, 8, 7, 5, 9, 7, -1],
   [5, 8, 4, 5, 10, 8, 10, 11, 8, -1],
   [5, 0, 4, 5, 11, 0, 5, 10, 11, 11, 3, 0, -1],
   [0, 1, 9, 8, 4, 10, 8, 10, 11, 10, 4, 5, -1],
   [10, 11, 4, 10, 4, 5, 11, 3, 4, 9, 4, 1, 3, 1, 4, -1],
   [2, 5, 1, 2, 8, 5, 2, 11, 8, 4, 5, 8, -1],
   [0, 4, 11, 0, 11, 3, 4, 5, 11, 2, 11, 1, 5, 1, 11, -1],
   [0, 2, 5, 0, 5, 9, 2, 11, 5, 4, 5, 8, 11, 8, 5, -1],
   [9, 4, 5, 2, 11, 3, -1],
   [2, 5, 10, 3, 5, 2, 3, 4, 5, 3, 8, 4, -1],
   [5, 10, 2, 5, 2, 4, 4, 2, 0, -1],
   [3, 10, 2, 3, 5, 10, 3, 8, 5, 4, 5, 8, 0, 1, 9, -1],
   [5, 10, 2, 5, 2, 4, 1, 9, 2, 9, 4, 2, -1],
   [8, 4, 5, 8, 5, 3, 3, 5, 1, -1],
   [0, 4, 5, 1, 0, 5, -1],
   [8, 4, 5, 8, 5, 3, 9, 0, 5, 0, 3, 5, -1],
   [9, 4, 5, -1],
   [4, 11, 7, 4, 9, 11, 9, 10, 11, -1],
   [0, 8, 3, 4, 9, 7, 9, 11, 7, 9, 10, 11, -1],
   [1, 10, 11, 1, 11, 4, 1, 4, 0, 7, 4, 11, -1],
   [3, 1, 4, 3, 4, 8, 1, 10, 4, 7, 4, 11, 10, 11, 4, -1],
   [4, 11, 7, 9, 11, 4, 9, 2, 11, 9, 1, 2, -1],
   [9, 7, 4, 9, 11, 7, 9, 1, 11, 2, 11, 1, 0, 8, 3, -1],
   [11, 7, 4, 11, 4, 2, 2, 4, 0, -1],
   [11, 7, 4, 11, 4, 2, 8, 3, 4, 3, 2, 4, -1],
   [2, 9, 10, 2, 7, 9, 2, 3, 7, 7, 4, 9, -1],
   [9, 10, 7, 9, 7, 4, 10, 2, 7, 8, 7, 0, 2, 0, 7, -1],
   [3, 7, 10, 3, 10, 2, 7, 4, 10, 1, 10, 0, 4, 0, 10, -1],
   [1, 10, 2, 8, 7, 4, -1],
   [4, 9, 1, 4, 1, 7, 7, 1, 3, -1],
   [4, 9, 1, 4, 1, 7, 0, 8, 1, 8, 7, 1, -1],
   [4, 0, 3, 7, 4, 3, -1],
   [4, 8, 7, -1],
   [9, 10, 8, 10, 11, 8, -1],
   [3, 0, 9, 3, 9, 11, 11, 9, 10, -1],
   [0, 1, 10, 0, 10, 8, 8, 10, 11, -1],
   [3, 1, 10, 11, 3, 10, -1],
   [1, 2, 11, 1, 11, 9, 9, 11, 8, -1],
   [3, 0, 9, 3, 9, 11, 1, 2, 9, 2, 11, 9, -1],
   [0, 2, 11, 8, 0, 11, -1],
   [3, 2, 11, -1],
   [2, 3, 8, 2, 8, 10, 10, 8, 9, -1],
   [9, 10, 2, 0, 9, 2, -1],
   [2, 3, 8, 2, 8, 10, 0, 1, 8, 1, 10, 8, -1],
   [1, 10, 2, -1],
   [1, 3, 8, 9, 1, 8, -1],
   [0, 9, 1, -1],
   [0, 3, 8, -1],
   [-1]]

/-- The worker's `edgeVerts`: the two cube corners of each of the 12
edges. -/
def edgeVerts : List (ℕ × ℕ) :=
  [(0, 1), (1, 2), (2, 3), (3, 0),
   (4, 5), (5, 6), (6, 7), (7, 4),
   (0, 4), (1, 5), (2, 6), (3, 7)]

/-- The worker's `cornerOffsets`: the (ix,iy,iz) offsets of the 8 cube
corners. -/
def cornerOffsets : List (ℕ × ℕ × ℕ) :=
  [(0, 0, 0), (1, 0, 0), (1, 1, 0), (0, 1, 0),
   (0, 0, 1), (1, 0, 1), (1, 1, 1), (0, 1, 1)]

/-- The cube index of a cell: bit `c` is set iff corner `c` samples
negative (`if (vals[c] < 0) cubeIndex |= (1 << c)`). -/
def cubeIndexOf (vals : ℕ → ℚ) : ℕ :=
  (List.range 8).foldl
    (fun acc c => if vals c < 0 then acc ||| (1 <<< c) else acc) 0

/-- The SDF value at grid vertex `(ix, iy, iz)`.  The worker samples
these into a dense `field` array in phase 1 and reads them back in
phase 2; the embedding recomputes the same values (`Float32` storage
rounding is not modeled). -/
def fieldAt (f : ℚ → ℚ → ℚ → ℚ) (bMin : Q3) (dx dy dz : ℚ)
    (ix iy iz : ℕ) : ℚ :=
  f (bMin.1 + ix * dx) (bMin.2.1 + iy * dy) (bMin.2.2 + iz * dz)

/-- The 8 corner samples `vals` of the cell at `(ix, iy, iz)`. -/
def cellVals (f : ℚ → ℚ → ℚ → ℚ) (bMin : Q3) (dx dy dz : ℚ)
    (ix iy iz : ℕ) : ℕ → ℚ := fun c =>
  let off := cornerOffsets.getD c (0, 0, 0)
  fieldAt f bMin dx dy dz (ix + off.1) (iy + off.2.1) (iz + off.2.2)

/-- The normal of an interpolated vertex: central-difference SDF
gradient with step `eps`, normalized by `Math.sqrt(...) || 1`. -/
def sdfGradNormal (fm : FloatModel) (f : ℚ → ℚ → ℚ → ℚ)
    (eps vx vy vz : ℚ) : Q3 :=
  let gnx := f (vx + eps) vy vz - f (vx - eps) vy vz
  let gny := f vx (vy + eps) vz - f vx (vy - eps) vz
  let gnz := f vx vy (vz + eps) - f vx vy (vz - eps)
  let glen := sqrtOr1 fm (gnx * gnx + gny * gny + gnz * gnz)
  (gnx / glen, gny / glen, gnz / glen)

/-- The interpolated surface vertex (position and normal) on edge `e`
of the cell at `(ix, iy, iz)`. -/
def cellVert (fm : FloatModel) (f : ℚ → ℚ → ℚ → ℚ) (bMin : Q3)
    (dx dy dz eps : ℚ) (ix iy iz : ℕ) (vals : ℕ → ℚ) (e : ℕ) :
    Q3 × Q3 :=
  let ev := edgeVerts.getD e (0, 0)
  let c0 := cornerOffsets.getD ev.1 (0, 0, 0)
  let c1 := cornerOffsets.getD ev.2 (0, 0, 0)
  let v0 := vals ev.1
  let v1 := vals ev.2
  let t := v0 / (v0 - v1)
  let vx := bMin.1 + ((ix : ℚ) + (c0.1 : ℚ) + ((c1.1 : ℚ) - (c0.1 : ℚ)) * t) * dx
  let vy := bMin.2.1 +
    ((iy : ℚ) + (c0.2.1 : ℚ) + ((c1.2.1 : ℚ) - (c0.2.1 : ℚ)) * t) * dy
  let vz := bMin.2.2 +
    ((iz : ℚ) + (c0.2.2 : ℚ) + ((c1.2.2 : ℚ) - (c0.2.2 : ℚ)) * t) * dz
  ((vx, vy, vz), sdfGradNormal fm f eps vx vy vz)

/-- `verts[tris[t]]` with the sentinel guarded (`tris` entries other
than `-1` are the edge indices `0…11`). -/
def lookupVert (verts : ℕ → Option (Q3 × Q3)) (a : ℤ) :
    Option (Q3 × Q3) :=
  if a < 0 then none else verts a.toNat

/-- The triangle-emission loop of a cell (`for (t = 0; t < tris.length
- 1; t += 3)`): stop at the `-1` sentinel, skip any triple with a
missing edge vertex, otherwise emit with the color sampled at the
centroid.  Table rows have length `3k + 1`, for which taking three
entries while at least one more remains is exactly the JavaScript loop
bound. -/
def triLoop (colorFn : ℚ → ℚ → ℚ → Q3) (verts : ℕ → Option (Q3 × Q3)) :
    List ℤ → MeshState → MeshState
  | a :: b :: c :: rest, m =>
    if a = -1 then m
    else
      let m' :=
        match lookupVert verts a, lookupVert verts b, lookupVert verts c with
        | some va, some vb, some vc =>
          let cx := (va.1.1 + vb.1.1 + vc.1.1) / 3
          let cy := (va.1.2.1 + vb.1.2.1 + vc.1.2.1) / 3
          let cz := (va.1.2.2 + vb.1.2.2 + vc.1.2.2) / 3
          let col := colorFn cx cy cz
          emitSmoothTriangle
            va.1.1 va.1.2.1 va.1.2.2 va.2.1 va.2.2.1 va.2.2.2
            vb.1.1 vb.1.2.1 vb.1.2.2 vb.2.1 vb.2.2.1 vb.2.2.2
            vc.1.1 vc.1.2.1 vc.1.2.2 vc.2.1 vc.2.2.1 vc.2.2.2
            col.1 col.2.1 col.2.2 m
        | _, _, _ => m
      triLoop colorFn verts rest m'
  | _, m => m

/-- Process one marching-cubes cell. -/
def cellStep (fm : FloatModel) (f : ℚ → ℚ → ℚ → ℚ)
    (colorFn : ℚ → ℚ → ℚ → Q3) (bMin : Q3) (dx dy dz eps : ℚ)
    (ix iy iz : ℕ) (m : MeshState) : MeshState :=
  let vals := cellVals f bMin dx dy dz ix iy iz
  let ci := cubeIndexOf vals
  if MC_EDGE_TABLE.getD ci 0 = 0 then m
  else
    let verts := fun (e : ℕ) =>
      if (MC_EDGE_TABLE.getD ci 0).testBit e then
        some (cellVert fm f bMin dx dy dz eps ix iy iz vals e)
      else none
    triLoop colorFn verts (MC_TRI_TABLE.getD ci [-1]) m

/-- `sdfMesh(sdfFn, colorFn, bMin, bMax, resolution)`: marching cubes
over `res³` cells (`resolution || 32`), `eps = Math.max(dx,dy,dz)*0.5`. -/
def sdfMesh (fm : FloatModel) (f : ℚ → ℚ → ℚ → ℚ)
    (colorFn : ℚ → ℚ → ℚ → Q3) (bMin bMax : Q3) (resolution : ℕ)
    (m : MeshState) : MeshState :=
  let res := if resolution = 0 then 32 else resolution
  let dx := (bMax.1 - bMin.1) / res
  let dy := (bMax.2.1 - bMin.2.1) / res
  let dz := (bMax.2.2 - bMin.2.2) / res
  let eps := max (max dx dy) dz * (1 / 2)
  (List.range res).foldl
    (fun m iz =>
      (List.range res).foldl
        (fun m iy =>
          (List.range res).foldl
            (fun m ix => cellStep fm f colorFn bMin dx dy dz eps ix iy iz m)
            m)
        m)
    m

/-- `sdSphere`. -/
def sdSphere (fm : FloatModel) (px py pz r : ℚ) : ℚ :=
  fm.sqrt (px * px + py * py + pz * pz) - r

/-- `sdBox`. -/
def sdBox (fm : FloatModel) (px py pz sx sy sz : ℚ) : ℚ :=
  let dx := |px| - sx
  let dy := |py| - sy
  let dz := |pz| - sz
  let ex := max dx 0
  let ey := max dy 0
  let ez := max dz 0
  fm.sqrt (ex * ex + ey * ey + ez * ez) + min (max dx (max dy dz)) 0

/-- `sdCylinder`. -/
def sdCylinder (fm : FloatModel) (px py pz r h : ℚ) : ℚ :=
  let d := fm.sqrt (px * px + pz * pz) - r
  let dy := |py| - h
  fm.sqrt (max d 0 * max d 0 + max dy 0 * max dy 0) + min (max d dy) 0

/-- `sdTorus`. -/
def sdTorus (fm : FloatModel) (px py pz bigR r : ℚ) : ℚ :=
  let qx := fm.sqrt (px * px + pz * pz) - bigR
  fm.sqrt (qx * qx + py * py) - r

/-- `sphereMesh`: convenience wrapper, 30 % padded bounds, `res || 64`. -/
def sphereMesh (fm : FloatModel) (cx cy cz radius r g b : ℚ) (res : ℕ)
    (m : MeshState) : MeshState :=
  let res := if res = 0 then 64 else res
  let pad := radius * (13 / 10)
  sdfMesh fm (fun x y z => sdSphere fm (x - cx) (y - cy) (z - cz) radius)
    (fun _ _ _ => (r, g, b))
    (cx - pad, cy - pad, cz - pad) (cx + pad, cy + pad, cz + pad) res m

/-- `boxMesh`. -/
def boxMesh (fm : FloatModel) (cx cy cz sx sy sz r g b : ℚ) (res : ℕ)
    (m : MeshState) : MeshState :=
  let res := if res = 0 then 64 else res
  let px := sx * (1 / 2) * (13 / 10)
  let py := sy * (1 / 2) * (13 / 10)
  let pz := sz * (1 / 2) * (13 / 10)
  sdfMesh fm
    (fun x y z =>
      sdBox fm (x - cx) (y - cy) (z - cz) (sx * (1 / 2)) (sy * (1 / 2))
        (sz * (1 / 2)))
    (fun _ _ _ => (r, g, b))
    (cx - px, cy - py, cz - pz) (cx + px, cy + py, cz + pz) res m

/-- `cylinderMesh`. -/
def cylinderMesh (fm : FloatModel) (cx cy cz radius height r g b : ℚ)
    (res : ℕ) (m : MeshState) : MeshState :=
  let res := if res = 0 then 64 else res
  let padR := radius * (13 / 10)
  let padH := height * (1 / 2) * (13 / 10)
  sdfMesh fm
    (fun x y z =>
      sdCylinder fm (x - cx) (y - cy) (z - cz) radius (height * (1 / 2)))
    (fun _ _ _ => (r, g, b))
    (cx - padR, cy - padH, cz - padR) (cx + padR, cy + padH, cz + padR)
    res m

/-- `torusMesh`. -/
def torusMesh (fm : FloatModel) (cx cy cz majorR minorR r g b : ℚ)
    (res : ℕ) (m : MeshState) : MeshState :=
  let res := if res = 0 then 64 else res
  let padXZ := (majorR + minorR) * (13 / 10)
  let padY := minorR * (13 / 10)
  sdfMesh fm
    (fun x y z => sdTorus fm (x - cx) (y - cy) (z - cz) majorR minorR)
    (fun _ _ _ => (r, g, b))
    (cx - padXZ, cy - padY, cz - padXZ) (cx + padXZ, cy + padY, cz + padXZ)
    res m

/-! ## Mesh buffer invariants and the normals of `sdfMesh` -/
/-- Well-formedness of the worker's mesh buffers: all three arrays have
length `cap · 3`, the vertex count fits the capacity and is a multiple
of 3, and the capacity is at least one triangle. -/
def MeshWF (m : MeshState) : Prop :=
  m.meshPositions.length = m.meshCap * 3 ∧
  m.meshColors.length = m.meshCap * 3 ∧
  m.meshNormals.length = m.meshCap * 3 ∧
  m.meshCount ≤ m.meshCap ∧ m.meshCount % 3 = 0 ∧ 3 ≤ m.meshCap

/-- The normal of vertex `j` (slots `3j, 3j+1, 3j+2` of the normals
array). -/
def vtxNormal (m : MeshState) (j : ℕ) : Q3 :=
  (m.meshNormals.getD (3 * j) 0, m.meshNormals.getD (3 * j + 1) 0,
    m.meshNormals.getD (3 * j + 2) 0)

/-- A per-vertex normal is either the zero vector or has squared norm in
`[1/4, 9/4]` (i.e. norm in `[1/2, 3/2]`). -/
def NormOK (n : Q3) : Prop :=
  n = (0, 0, 0) ∨
    (1 / 4 ≤ n.1 * n.1 + n.2.1 * n.2.1 + n.2.2 * n.2.2 ∧
      n.1 * n.1 + n.2.1 * n.2.1 + n.2.2 * n.2.2 ≤ 9 / 4)

/-- Every emitted vertex normal satisfies `NormOK`. -/
def NormalsOK (m : MeshState) : Prop :=
  ∀ j < m.meshCount, NormOK (vtxNormal m j)

/-- `fm.sqrt` is a square root up to a factor of `3/2` in each
direction; the IEEE `Math.sqrt` (correctly rounded) satisfies this with
enormous margin. -/
def SqrtAccurate (fm : FloatModel) : Prop :=
  ∀ q : ℚ, 0 < q →
    4 / 9 * q ≤ fm.sqrt q * fm.sqrt q ∧ fm.sqrt q * fm.sqrt q ≤ 4 * q

/-- A concrete rational square root with provable two-sided accuracy,
used to instantiate `FloatModel.sqrt` in witnesses. -/
def sqrtQ (q : ℚ) : ℚ :=
  if q ≤ 0 then 0
  else (Nat.sqrt (q.num.toNat * q.den * 4 ^ 20) : ℚ) / ((q.den : ℚ) * 2 ^ 20)

/-- A float model whose square root is `sqrtQ` (provably accurate). -/
def fmGood : FloatModel :=
  { sqrt := sqrtQ, cos := fun _ => 1, sin := fun _ => 0, pi := 355 / 113 }

/-- A tiny SDF whose single surface crossing has an exactly zero
central-difference gradient: `-1` at the origin, `3` at `(1,0,0)`, `0`
everywhere else. -/
def fZeroGrad : ℚ → ℚ → ℚ → ℚ := fun x y z =>
  if x = 0 ∧ y = 0 ∧ z = 0 then -1
  else if x = 1 ∧ y = 0 ∧ z = 0 then 3 else 0

/-! ## Seeded PRNG and value noise (source: `_mulberry32`, `_hash2`,
`_hash3`, `noise2D`, `noise3D`, `fbm2D`, `fbm3D`)

JavaScript bitwise operators convert their operands with `ToInt32` /
`ToUint32`; these helpers model that on `ℤ`.  Products that can exceed
53 bits are rounded to float64 precision with `rnd53`. -/
/-- `ToUint32`: the value modulo `2³²`, as a natural number. -/
def toUint32 (z : ℤ) : ℕ := (z % 4294967296).toNat

/-- `ToInt32`: the value modulo `2³²`, reinterpreted as signed. -/
def toInt32 (z : ℤ) : ℤ :=
  let p := z % 4294967296
  if p < 2147483648 then p else p - 4294967296

/-- `Math.imul`. -/
def jsImul (a b : ℤ) : ℤ := toInt32 (toInt32 a * toInt32 b)

/-- `a ^ b` (32-bit xor, signed result). -/
def jsXor32 (a b : ℤ) : ℤ := toInt32 (Nat.xor (toUint32 a) (toUint32 b) : ℕ)

/-- `a | b` (32-bit or, signed result). -/
def jsOr32 (a b : ℤ) : ℤ := toInt32 (Nat.lor (toUint32 a) (toUint32 b) : ℕ)

/-- `a >>> k` (unsigned shift; result is a nonnegative 32-bit value). -/
def jsUshr (a : ℤ) (k : ℕ) : ℤ := ((toUint32 a) >>> k : ℕ)

/-- `a >> k` (signed shift = floor division of the signed value). -/
def jsShr (a : ℤ) (k : ℕ) : ℤ := Int.fdiv (toInt32 a) (2 ^ k)

/-- Round an integer to the nearest float64 (53-bit mantissa,
ties-to-even); exact below `2⁵³`. -/
def rnd53 (z : ℤ) : ℤ :=
  let a := z.natAbs
  if a < 2 ^ 53 then z
  else
    let k := a.log2 - 52
    let q := a >>> k
    let r := a % 2 ^ k
    let half := 2 ^ (k - 1)
    let q' := if half < r ∨ (r = half ∧ q % 2 = 1) then q + 1 else q
    if z < 0 then -((q' : ℤ) * 2 ^ k) else (q' : ℤ) * 2 ^ k

/-- `_mulberry32()`: returns the sample in `[0,1)` and the updated
`_seed`. -/
def mulberry32 (seed : ℤ) : ℚ × ℤ :=
  let s0 := toInt32 seed
  let s1 := toInt32 (s0 + 0x6d2b79f5)
  let t1 := jsImul (jsXor32 s1 (jsUshr s1 15)) (jsOr32 1 s1)
  let t2 := jsXor32 (t1 + jsImul (jsXor32 t1 (jsUshr t1 7)) (jsOr32 61 t1)) t1
  (((toUint32 (jsXor32 t2 (jsUshr t2 14)) : ℚ) / 4294967296), s1)

/-- `_hash2(ix, iy)`: lattice hash, reading `_seed`. -/
def hash2 (seed : ℤ) (ix iy : ℤ) : ℚ :=
  let h0 := rnd53 (rnd53 (rnd53 (ix * 374761393) + rnd53 (iy * 668265263)) +
    seed)
  let h1 := rnd53 (jsXor32 h0 (jsShr h0 13) * 1274126177)
  (toUint32 (jsXor32 h1 (jsShr h1 16)) : ℚ) / 4294967296

/-- `_hash3(ix, iy, iz)`. -/
def hash3 (seed : ℤ) (ix iy iz : ℤ) : ℚ :=
  let h0 := rnd53 (rnd53 (rnd53 (rnd53 (ix * 374761393) +
    rnd53 (iy * 668265263)) + rnd53 (iz * 1440670961)) + seed)
  let h1 := rnd53 (jsXor32 h0 (jsShr h0 13) * 1274126177)
  (toUint32 (jsXor32 h1 (jsShr h1 16)) : ℚ) / 4294967296

/-- `_smooth(t) = t·t·(3 − 2t)`. -/
def smoothQ (t : ℚ) : ℚ := t * t * (3 - 2 * t)

/-- `_lerp`. -/
def lerpQ (a b t : ℚ) : ℚ := a + (b - a) * t

/-- `noise2D(x, y)`: 2D value noise in `[-1, 1]`, reading `_seed`. -/
def noise2D (seed : ℤ) (x y : ℚ) : ℚ :=
  let ix := Rat.floor x
  let iy := Rat.floor y
  let fx := smoothQ (x - ix)
  let fy := smoothQ (y - iy)
  let a := lerpQ (hash2 seed ix iy) (hash2 seed (ix + 1) iy) fx
  let b := lerpQ (hash2 seed ix (iy + 1)) (hash2 seed (ix + 1) (iy + 1)) fx
  lerpQ a b fy * 2 - 1

/-- `noise3D(x, y, z)`. -/
def noise3D (seed : ℤ) (x y z : ℚ) : ℚ :=
  let ix := Rat.floor x
  let iy := Rat.floor y
  let iz := Rat.floor z
  let fx := smoothQ (x - ix)
  let fy := smoothQ (y - iy)
  let fz := smoothQ (z - iz)
  let a00 := lerpQ (hash3 seed ix iy iz) (hash3 seed (ix + 1) iy iz) fx
  let a10 := lerpQ (hash3 seed ix (iy + 1) iz) (hash3 seed (ix + 1) (iy + 1) iz) fx
  let a01 := lerpQ (hash3 seed ix iy (iz + 1)) (hash3 seed (ix + 1) iy (iz + 1)) fx
  let a11 := lerpQ (hash3 seed ix (iy + 1) (iz + 1))
    (hash3 seed (ix + 1) (iy + 1) (iz + 1)) fx
  let b0 := lerpQ a00 a10 fy
  let b1 := lerpQ a01 a11 fy
  lerpQ b0 b1 fz * 2 - 1

/-- `fbm2D` (defaults `octaves || 4`, `lacunarity || 2`, `gain || 0.5`;
the final `sum / norm` uses the `ℚ` convention `x / 0 = 0`). -/
def fbm2D (seed : ℤ) (x y : ℚ) (octaves : ℕ) (lacunarity gain : ℚ) : ℚ :=
  let octaves := if octaves = 0 then 4 else octaves
  let lacunarity := if lacunarity = 0 then 2 else lacunarity
  let gain := if gain = 0 then 1 / 2 else gain
  let acc := (List.range octaves).foldl
    (fun (acc : ℚ × ℚ × ℚ × ℚ) _ =>
      let amp := acc.1
      let freq := acc.2.1
      let sum := acc.2.2.1
      let norm := acc.2.2.2
      (amp * gain, freq * lacunarity,
        sum + amp * noise2D seed (x * freq) (y * freq), norm + amp))
    (1, 1, 0, 0)
  acc.2.2.1 / acc.2.2.2

/-- `fbm3D`. -/
def fbm3D (seed : ℤ) (x y z : ℚ) (octaves : ℕ) (lacunarity gain : ℚ) : ℚ :=
  let octaves := if octaves = 0 then 4 else octaves
  let lacunarity := if lacunarity = 0 then 2 else lacunarity
  let gain := if gain = 0 then 1 / 2 else gain
  let acc := (List.range octaves).foldl
    (fun (acc : ℚ × ℚ × ℚ × ℚ) _ =>
      let amp := acc.1
      let freq := acc.2.1
      let sum := acc.2.2.1
      let norm := acc.2.2.2
      (amp * gain, freq * lacunarity,
        sum + amp * noise3D seed (x * freq) (y * freq) (z * freq),
        norm + amp))
    (1, 1, 0, 0)
  acc.2.2.1 / acc.2.2.2

/-! ## The sandbox program language and the worker entry point
(source: `self.onmessage`)

Validated user code is a sequence of statements calling the injected
bindings.  `SbExpr` is an argument expression over those bindings
(constants, `random()`, noise, the `SCENE_*` constants, arithmetic);
`SbCmd` is one call to a geometry binding.  SDF/color/height callbacks
are modeled as pure functions of their arguments, per the spec's
`sdf_fn: (x,y,z) → f32` contract. -/
/-- The scene bounds passed in the message. -/
structure SceneBoundsQ where
  min : Q3
  max : Q3
  center : Q3

/-- An argument expression of sandbox code. -/
inductive SbExpr where
  | const (q : ℚ)
  | rand
  | noise2 (a b : SbExpr)
  | noise3 (a b c : SbExpr)
  | fbm2 (a b : SbExpr) (octaves : ℕ) (lacunarity gain : ℚ)
  | fbm3 (a b c : SbExpr) (octaves : ℕ) (lacunarity gain : ℚ)
  | sceneMinX
  | sceneMaxX
  | sceneMinY
  | sceneMaxY
  | sceneMinZ
  | sceneMaxZ
  | sceneCenterX
  | sceneCenterY
  | sceneCenterZ
  | add (a b : SbExpr)
  | sub (a b : SbExpr)
  | mul (a b : SbExpr)
  | div (a b : SbExpr)
  | neg (a : SbExpr)

/-- The worker's mutable globals: the PRNG seed and the mesh buffers. -/
structure WorkerState where
  seedVar : ℤ
  mesh : MeshState

/-- Evaluate an expression; `rand` advances the seed, the noise
functions read it. -/
def evalE (sb : SceneBoundsQ) : SbExpr → ℤ → ℚ × ℤ
  | .const q, s => (q, s)
  | .rand, s => mulberry32 s
  | .noise2 a b, s =>
    let (va, s1) := evalE sb a s
    let (vb, s2) := evalE sb b s1
    (noise2D s2 va vb, s2)
  | .noise3 a b c, s =>
    let (va, s1) := evalE sb a s
    let (vb, s2) := evalE sb b s1
    let (vc, s3) := evalE sb c s2
    (noise3D s3 va vb vc, s3)
  | .fbm2 a b oct lac gn, s =>
    let (va, s1) := evalE sb a s
    let (vb, s2) := evalE sb b s1
    (fbm2D s2 va vb oct lac gn, s2)
  | .fbm3 a b c oct lac gn, s =>
    let (va, s1) := evalE sb a s
    let (vb, s2) := evalE sb b s1
    let (vc, s3) := evalE sb c s2
    (fbm3D s3 va vb vc oct lac gn, s3)
  | .sceneMinX, s => (sb.min.1, s)
  | .sceneMaxX, s => (sb.max.1, s)
  | .sceneMinY, s => (sb.min.2.1, s)
  | .sceneMaxY, s => (sb.max.2.1, s)
  | .sceneMinZ, s => (sb.min.2.2, s)
  | .sceneMaxZ, s => (sb.max.2.2, s)
  | .sceneCenterX, s => (sb.center.1, s)
  | .sceneCenterY, s => (sb.center.2.1, s)
  | .sceneCenterZ, s => (sb.center.2.2, s)
  | .add a b, s =>
    let (va, s1) := evalE sb a s
    let (vb, s2) := evalE sb b s1
    (va + vb, s2)
  | .sub a b, s =>
    let (va, s1) := evalE sb a s
    let (vb, s2) := evalE sb b s1
    (va - vb, s2)
  | .mul a b, s =>
    let (va, s1) := evalE sb a s
    let (vb, s2) := evalE sb b s1
    (va * vb, s2)
  | .div a b, s =>
    let (va, s1) := evalE sb a s
    let (vb, s2) := evalE sb b s1
    (va / vb, s2)
  | .neg a, s =>
    let (va, s1) := evalE sb a s
    (-va, s1)

/-- Evaluate arguments left to right. -/
def evalArgs (sb : SceneBoundsQ) : List SbExpr → ℤ → List ℚ × ℤ
  | [], s => ([], s)
  | e :: es, s =>
    let (v, s1) := evalE sb e s
    let (vs, s2) := evalArgs sb es s1
    (v :: vs, s2)

/-- One call of sandbox code to a geometry binding. -/
inductive SbCmd where
  | emitTriangle (x1 y1 z1 x2 y2 z2 x3 y3 z3 r g b : SbExpr)
  | emitQuad (x1 y1 z1 x2 y2 z2 x3 y3 z3 x4 y4 z4 r g b : SbExpr)
  | emitSmoothTriangle (x1 y1 z1 nx1 ny1 nz1 x2 y2 z2 nx2 ny2 nz2
      x3 y3 z3 nx3 ny3 nz3 r g b : SbExpr)
  | box (cx cy cz sx sy sz r g b : SbExpr)
  | lathe (cx cy cz : SbExpr) (profile : List (ℚ × ℚ)) (segments : ℕ)
      (r g b angleOffset : SbExpr)
  | extrudePath (profile : List (ℚ × ℚ)) (path : List Q3) (closed : Bool)
      (r g b : SbExpr)
  | grid (x0 z0 x1 z1 : SbExpr) (resX resZ : ℕ) (heightFn : ℚ → ℚ → ℚ)
      (colorFn : Option (ℚ → ℚ → Q3))
  | sdfMesh (f : ℚ → ℚ → ℚ → ℚ) (colorFn : ℚ → ℚ → ℚ → Q3) (bMin bMax : Q3)
      (res : ℕ)
  | sphereMesh (cx cy cz radius r g b : SbExpr) (res : ℕ)
  | boxMesh (cx cy cz sx sy sz r g b : SbExpr) (res : ℕ)
  | cylinderMesh (cx cy cz radius height r g b : SbExpr) (res : ℕ)
  | torusMesh (cx cy cz majorR minorR r g b : SbExpr) (res : ℕ)

/-- Execute one command: evaluate the arguments (threading the PRNG
seed), then run the geometry routine on the mesh buffers. -/
def applyCmd (fm : FloatModel) (sb : SceneBoundsQ) (st : WorkerState) :
    SbCmd → WorkerState
  | .emitTriangle x1 y1 z1 x2 y2 z2 x3 y3 z3 r g b =>
    let (vs, s') :=
      evalArgs sb [x1, y1, z1, x2, y2, z2, x3, y3, z3, r, g, b] st.seedVar
    let a := fun i => vs.getD i 0
    { seedVar := s',
      mesh := emitTriangle (a 0) (a 1) (a 2) (a 3) (a 4) (a 5) (a 6) (a 7)
        (a 8) (a 9) (a 10) (a 11) st.mesh }
  | .emitQuad x1 y1 z1 x2 y2 z2 x3 y3 z3 x4 y4 z4 r g b =>
    let (vs, s') :=
      evalArgs sb [x1, y1, z1, x2, y2, z2, x3, y3, z3, x4, y4, z4, r, g, b]
        st.seedVar
    let a := fun i => vs.getD i 0
    { seedVar := s',
      mesh := emitQuad (a 0) (a 1) (a 2) (a 3) (a 4) (a 5) (a 6) (a 7) (a 8)
        (a 9) (a 10) (a 11) (a 12) (a 13) (a 14) st.mesh }
  | .emitSmoothTriangle x1 y1 z1 nx1 ny1 nz1 x2 y2 z2 nx2 ny2 nz2 x3 y3 z3
      nx3 ny3 nz3 r g b =>
    let (vs, s') :=
      evalArgs sb [x1, y1, z1, nx1, ny1, nz1, x2, y2, z2, nx2, ny2, nz2,
        x3, y3, z3, nx3, ny3, nz3, r, g, b] st.seedVar
    let a := fun i => vs.getD i 0
    { seedVar := s',
      mesh := emitSmoothTriangle (a 0) (a 1) (a 2) (a 3) (a 4) (a 5) (a 6)
        (a 7) (a 8) (a 9) (a 10) (a 11) (a 12) (a 13) (a 14) (a 15) (a 16)
        (a 17) (a 18) (a 19) (a 20) st.mesh }
  | .box cx cy cz sx sy sz r g b =>
    let (vs, s') := evalArgs sb [cx, cy, cz, sx, sy, sz, r, g, b] st.seedVar
    let a := fun i => vs.getD i 0
    { seedVar := s',
      mesh := box (a 0) (a 1) (a 2) (a 3) (a 4) (a 5) (a 6) (a 7) (a 8)
        st.mesh }
  | .lathe cx cy cz profile segments r g b angleOffset =>
    let (vs, s') :=
      evalArgs sb [cx, cy, cz, r, g, b, angleOffset] st.seedVar
    let a := fun i => vs.getD i 0
    { seedVar := s',
      mesh := lathe fm (a 0) (a 1) (a 2) profile segments (a 3) (a 4) (a 5)
        (a 6) st.mesh }
  | .extrudePath profile path closed r g b =>
    let (vs, s') := evalArgs sb [r, g, b] st.seedVar
    let a := fun i => vs.getD i 0
    { seedVar := s',
      mesh := extrudePath fm profile path closed (a 0) (a 1) (a 2) st.mesh }
  | .grid x0 z0 x1 z1 resX resZ heightFn colorFn =>
    let (vs, s') := evalArgs sb [x0, z0, x1, z1] st.seedVar
    let a := fun i => vs.getD i 0
    { seedVar := s',
      mesh := grid (a 0) (a 1) (a 2) (a 3) resX resZ heightFn colorFn
        st.mesh }
  | .sdfMesh f colorFn bMin bMax res =>
    { seedVar := st.seedVar,
      mesh := sdfMesh fm f colorFn bMin bMax res st.mesh }
  | .sphereMesh cx cy cz radius r g b res =>
    let (vs, s') := evalArgs sb [cx, cy, cz, radius, r, g, b] st.seedVar
    let a := fun i => vs.getD i 0
    { seedVar := s',
      mesh := sphereMesh fm (a 0) (a 1) (a 2) (a 3) (a 4) (a 5) (a 6) res
        st.mesh }
  | .boxMesh cx cy cz sx sy sz r g b res =>
    let (vs, s') := evalArgs sb [cx, cy, cz, sx, sy, sz, r, g, b] st.seedVar
    let a := fun i => vs.getD i 0
    { seedVar := s',
      mesh := boxMesh fm (a 0) (a 1) (a 2) (a 3) (a 4) (a 5) (a 6) (a 7)
        (a 8) res st.mesh }
  | .cylinderMesh cx cy cz radius height r g b res =>
    let (vs, s') :=
      evalArgs sb [cx, cy, cz, radius, height, r, g, b] st.seedVar
    let a := fun i => vs.getD i 0
    { seedVar := s',
      mesh := cylinderMesh fm (a 0) (a 1) (a 2) (a 3) (a 4) (a 5) (a 6)
        (a 7) res st.mesh }
  | .torusMesh cx cy cz majorR minorR r g b res =>
    let (vs, s') :=
      evalArgs sb [cx, cy, cz, majorR, minorR, r, g, b] st.seedVar
    let a := fun i => vs.getD i 0
    { seedVar := s',
      mesh := torusMesh fm (a 0) (a 1) (a 2) (a 3) (a 4) (a 5) (a 6) (a 7)
        res st.mesh }

/-- Run a whole validated program. -/
def runProg (fm : FloatModel) (sb : SceneBoundsQ) (prog : List SbCmd)
    (st : WorkerState) : WorkerState :=
  prog.foldl (applyCmd fm sb) st

/-- A message posted to the worker. -/
structure WorkerMsg where
  prog : List SbCmd
  seed : ℤ
  sceneBounds : SceneBoundsQ

/-- The worker's reply: the drained buffers. -/
structure WorkerOutput where
  meshPositions : List ℚ
  meshColors : List ℚ
  meshVertexCount : ℕ
  meshNormals : Option (List ℚ)
  hasCustomNormals : Bool

/-- The prologue of `self.onmessage`: `_seed = seed || 42`, reset count
and capacity, allocate fresh zeroed buffers, clear
`_hasCustomNormals`.  Every mutable global is overwritten, so nothing of
the previous message's state survives. -/
def workerInitGlobals (msg : WorkerMsg) (st : WorkerState) : WorkerState :=
  { st with
    seedVar := if msg.seed = 0 then 42 else msg.seed,
    mesh := initMesh }

/-- The epilogue of `self.onmessage`: slice the three buffers to
`count * 3` and post them (normals only when custom normals were
emitted). -/
def drainOutput (st : WorkerState) : WorkerOutput :=
  { meshPositions := st.mesh.meshPositions.take (st.mesh.meshCount * 3),
    meshColors := st.mesh.meshColors.take (st.mesh.meshCount * 3),
    meshVertexCount := st.mesh.meshCount,
    meshNormals :=
      if st.mesh.hasCustomNormals then
        some (st.mesh.meshNormals.take (st.mesh.meshCount * 3))
      else none,
    hasCustomNormals := st.mesh.hasCustomNormals }

/-- `self.onmessage`: initialize the globals from the message, run the
program, drain the buffers. -/
def workerOnMessage (fm : FloatModel) (msg : WorkerMsg)
    (st : WorkerState) : WorkerOutput :=
  drainOutput (runProg fm msg.sceneBounds msg.prog (workerInitGlobals msg st))

/-! ## Theorems -/

theorem axisSeparation_comm (minA maxA minB maxB : ℚ) :
    axisSeparation minA maxA minB maxB = axisSeparation minB maxB minA maxA := by
  unfold axisSeparation
  rw [max_comm (minA - maxB) (minB - maxA)]

/-- C7 counterexample: two well-formed unit boxes touching at a corner.
`aabbOverlaps` returns `true`, yet every axis intersection is the single
point `1`, i.e. of zero length — not a positive intersection.  So
"overlaps iff positive intersection on each axis" is false of the code. -/
theorem aabbOverlaps_touching_boxes :
    aabbOverlaps
        ⟨⟨0, 0, 0⟩, ⟨1, 1, 1⟩⟩ ⟨⟨1, 1, 1⟩, ⟨2, 2, 2⟩⟩ = true ∧
      ¬ PosIntersection ⟨⟨0, 0, 0⟩, ⟨1, 1, 1⟩⟩ ⟨⟨1, 1, 1⟩, ⟨2, 2, 2⟩⟩ := by
  constructor
  · decide
  · decide

/-- C7 (amended): for AABBs satisfying the data-model invariant
`min ≤ max`, `aabbOverlaps` returns `true` iff on each of the three axes
the closed intervals have a *nonempty* (possibly zero-length)
intersection. -/
theorem aabbOverlaps_iff_nonempty_intersection (a b : Aabb)
    (ha : AabbWF a) (hb : AabbWF b) :
    aabbOverlaps a b = true ↔
      (max a.min.x b.min.x ≤ min a.max.x b.max.x ∧
       max a.min.y b.min.y ≤ min a.max.y b.max.y ∧
       max a.min.z b.min.z ≤ min a.max.z b.max.z) := by
  obtain ⟨hax, hay, haz⟩ := ha
  obtain ⟨hbx, hby, hbz⟩ := hb
  unfold aabbOverlaps
  simp only [Bool.and_eq_true, decide_eq_true_eq, ge_iff_le]
  constructor
  · rintro ⟨⟨⟨⟨⟨h1, h2⟩, h3⟩, h4⟩, h5⟩, h6⟩
    refine ⟨?_, ?_, ?_⟩ <;> rw [max_le_iff, le_min_iff, le_min_iff] <;>
      exact ⟨⟨by linarith, by linarith⟩, ⟨by linarith, by linarith⟩⟩
  · rintro ⟨h1, h2, h3⟩
    rw [max_le_iff, le_min_iff, le_min_iff] at h1 h2 h3
    exact ⟨⟨⟨⟨⟨h1.1.2, h1.2.1⟩, h2.1.2⟩, h2.2.1⟩, h3.1.2⟩, h3.2.1⟩

/-- C7 witness: the amended equivalence instantiated at two concrete
overlapping boxes. -/
theorem aabbOverlaps_iff_nonempty_intersection_witness :
    AabbWF ⟨⟨0, 0, 0⟩, ⟨2, 2, 2⟩⟩ ∧ AabbWF ⟨⟨1, 1, 1⟩, ⟨3, 3, 3⟩⟩ ∧
      (aabbOverlaps ⟨⟨0, 0, 0⟩, ⟨2, 2, 2⟩⟩ ⟨⟨1, 1, 1⟩, ⟨3, 3, 3⟩⟩ = true ↔
        (max (0 : ℚ) 1 ≤ min (2 : ℚ) 3 ∧ max (0 : ℚ) 1 ≤ min (2 : ℚ) 3 ∧
         max (0 : ℚ) 1 ≤ min (2 : ℚ) 3)) :=
  ⟨by decide, by decide,
    aabbOverlaps_iff_nonempty_intersection ⟨⟨0, 0, 0⟩, ⟨2, 2, 2⟩⟩
      ⟨⟨1, 1, 1⟩, ⟨3, 3, 3⟩⟩ (by decide) (by decide)⟩

theorem pickLargest_eq_max (gx gy gz : ℚ) :
    (if gz > (if gy > gx then ((gy, Axis.Y) : ℚ × Axis) else (gx, Axis.X)).1
        then ((gz, Axis.Z) : ℚ × Axis)
        else if gy > gx then (gy, Axis.Y) else (gx, Axis.X)).1 =
      max gx (max gy gz) := by
  by_cases h1 : gy > gx
  · simp only [h1, if_true]
    by_cases h2 : gz > gy
    · simp only [h2, if_true]
      rw [max_eq_right (le_of_lt h2), max_eq_right (by linarith)]
    · simp only [h2, if_false]
      rw [max_eq_left (not_lt.mp h2), max_eq_right (le_of_lt h1)]
  · simp only [h1, if_false]
    by_cases h2 : gz > gx
    · simp only [h2, if_true]
      rw [max_eq_right (le_of_lt (lt_of_le_of_lt (not_lt.mp h1) h2)),
        max_eq_right (le_of_lt h2)]
    · simp only [h2, if_false]
      rw [max_eq_left (max_le (not_lt.mp h1) (not_lt.mp h2))]

/-- C9: `computeGap` is symmetric in its two arguments — both the
reported gap magnitude and the reported axis are unchanged when the two
boxes are swapped; moreover the reported magnitude is the largest of the
three per-axis values `max(0, min_a − max_b, min_b − max_a)`. -/
theorem computeGap_symm (a b : Aabb) :
    computeGap a b = computeGap b a ∧
      (computeGap a b).1 =
        max (axisSeparation a.min.x a.max.x b.min.x b.max.x)
          (max (axisSeparation a.min.y a.max.y b.min.y b.max.y)
            (axisSeparation a.min.z a.max.z b.min.z b.max.z)) := by
  constructor
  · unfold computeGap
    rw [axisSeparation_comm a.min.x a.max.x b.min.x b.max.x,
      axisSeparation_comm a.min.y a.max.y b.min.y b.max.y,
      axisSeparation_comm a.min.z a.max.z b.min.z b.max.z]
  · exact pickLargest_eq_max _ _ _

/-- C1: `validateMeshOutput` reports `valid = false` exactly when the
vertex count is at least 500 000, or some entry among the first
`3 * vertex_count` values of the position array is NaN or infinite.
All other findings are warnings and leave `valid = true`. -/
theorem validateMeshOutput_valid_iff (layer : GeneratedLayer) :
    (validateMeshOutput layer).valid = false ↔
      (500000 ≤ layer.meshVertexCount ∨
        ∃ i < 3 * layer.meshVertexCount,
          (layer.meshPositions.getD i F.nan).isFinite = false) := by
  unfold validateMeshOutput
  by_cases hz : layer.meshVertexCount = 0
  · simp [hz]
  · by_cases hbig : ERROR_VERTEX_COUNT ≤ layer.meshVertexCount
    · simp only [hz, if_false, hbig, if_true, reduceIte]
      constructor
      · intro _
        exact Or.inl hbig
      · intro _
        simp
    · simp only [hz, if_false, hbig, if_false, reduceIte]
      have hiff :
          (0 < (List.range (layer.meshVertexCount * 3)).countP fun i =>
              !(layer.meshPositions.getD i F.nan).isFinite) ↔
            ∃ i < 3 * layer.meshVertexCount,
              (layer.meshPositions.getD i F.nan).isFinite = false := by
        rw [List.countP_pos_iff]
        constructor
        · rintro ⟨i, hi, hp⟩
          rw [List.mem_range] at hi
          exact ⟨i, by omega, by simpa using hp⟩
        · rintro ⟨i, hi, hp⟩
          exact ⟨i, List.mem_range.mpr (by omega), by simpa using hp⟩
      by_cases hnan : 0 < (List.range (layer.meshVertexCount * 3)).countP
          fun i => !(layer.meshPositions.getD i F.nan).isFinite
      · simp only [hnan, if_true, reduceIte]
        simp only [List.nil_append, List.length_cons, List.length_nil]
        constructor
        · intro _
          exact Or.inr (hiff.mp hnan)
        · intro _
          simp
      · simp only [hnan, if_false, reduceIte]
        simp only [List.append_nil, List.length_nil]
        constructor
        · intro h
          simp at h
        · rintro (h | h)
          · exact absurd h hbig
          · exact absurd (hiff.mpr h) hnan

theorem containsBad_node_iff {d : ℕ} {k : NodeKind} {cs : List AstNode} :
    ContainsBad d (.node k cs) ↔
      BadNode d k ∨ ∃ c ∈ cs, ContainsBad (d + 1) c := by
  constructor
  · intro h
    cases h with
    | here hb => exact Or.inl hb
    | child hm hc => exact Or.inr ⟨_, hm, hc⟩
  · rintro (hb | ⟨c, hm, hc⟩)
    · exact ContainsBad.here hb
    · exact ContainsBad.child hm hc

theorem checkNode_eq_none_iff (d : ℕ) (k : NodeKind) :
    checkNode d k = none ↔ ¬ BadNode d k := by
  unfold checkNode BadNode
  by_cases hd : MAX_AST_DEPTH < d
  · simp [hd]
  · cases k with
    | ident name => by_cases hn : name ∈ BLOCKED_IDENTIFIERS <;> simp [hd, hn]
    | lit strVal =>
      cases strVal with
      | none => simp [hd]
      | some s => by_cases hs : isBlockedUrl s = true <;> simp [hd, hs]
    | importExpr => simp [hd]
    | other => simp [hd]

mutual

theorem walkCheck_eq_none_iff :
    ∀ (n : AstNode) (d : ℕ), walkCheck n d = none ↔ ¬ ContainsBad d n
  | .node k cs, d => by
    rw [walkCheck]
    rcases hchk : checkNode d k with _ | v
    · have hk := (checkNode_eq_none_iff d k).mp hchk
      have hcs := walkCheckList_eq_none_iff cs (d + 1)
      rw [hcs]
      simp only [containsBad_node_iff, not_or]
      push_neg
      constructor
      · intro h
        exact ⟨hk, h⟩
      · rintro ⟨_, hall⟩
        exact hall
    · have hk : BadNode d k := by
        by_contra hbad
        rw [← checkNode_eq_none_iff d k] at hbad
        rw [hchk] at hbad
        exact Option.noConfusion hbad
      simp only [containsBad_node_iff]
      constructor
      · intro h
        exact Option.noConfusion h
      · intro h
        exact absurd (Or.inl hk) h

theorem walkCheckList_eq_none_iff :
    ∀ (l : List AstNode) (d : ℕ),
      walkCheckList l d = none ↔ ∀ c ∈ l, ¬ ContainsBad d c
  | [], d => by simp [walkCheckList]
  | c :: cs, d => by
    rw [walkCheckList]
    rcases hc : walkCheck c d with _ | v
    · have hhd := (walkCheck_eq_none_iff c d).mp hc
      have htl := walkCheckList_eq_none_iff cs d
      simp only [List.mem_cons]
      constructor
      · intro h
        rintro x (rfl | hm)
        · exact hhd
        · exact (htl.mp h) x hm
      · intro h
        exact htl.mpr fun x hm => h x (Or.inr hm)
    · have hhd : ContainsBad d c := by
        by_contra hbad
        rw [← walkCheck_eq_none_iff c d] at hbad
        rw [hc] at hbad
        exact Option.noConfusion hbad
      constructor
      · intro h
        exact Option.noConfusion h
      · intro h
        exact absurd hhd (h c (List.mem_cons_self c cs))

end

/-- C2: for a source that parses, `validateCode` returns `valid = false`
iff the AST contains a blocked identifier, a matching URL string
literal, a dynamic `import()` expression, or a node at nesting depth
exceeding 64 — and `valid = true` when none of these is present. -/
theorem validateAst_false_iff (root : AstNode) :
    validateAst root = false ↔ ContainsBad 0 root := by
  unfold validateAst
  rcases hw : walkCheck root 0 with _ | v
  · have := (walkCheck_eq_none_iff root 0).mp hw
    simp [this]
  · have : ContainsBad 0 root := by
      by_contra hbad
      rw [← walkCheck_eq_none_iff root 0] at hbad
      rw [hw] at hbad
      exact Option.noConfusion hbad
    simp [this]

/-! ### Basic emitter lemmas -/
theorem writeSeq_length :
    ∀ (vs l : List ℚ) (i : ℕ), (writeSeq l i vs).length = l.length := by
  intro vs
  induction vs with
  | nil => intro l i; rfl
  | cons v vs ih =>
    intro l i
    rw [writeSeq, ih, List.length_set]

theorem growMesh_meshCount (m : MeshState) :
    (growMesh m).meshCount = m.meshCount := rfl

theorem emitTriangle_meshCount (x1 y1 z1 x2 y2 z2 x3 y3 z3 r g b : ℚ)
    (m : MeshState) :
    (emitTriangle x1 y1 z1 x2 y2 z2 x3 y3 z3 r g b m).meshCount =
      m.meshCount + 3 := by
  unfold emitTriangle
  split <;> rfl

theorem emitQuad_meshCount (x1 y1 z1 x2 y2 z2 x3 y3 z3 x4 y4 z4 r g b : ℚ)
    (m : MeshState) :
    (emitQuad x1 y1 z1 x2 y2 z2 x3 y3 z3 x4 y4 z4 r g b m).meshCount =
      m.meshCount + 6 := by
  unfold emitQuad
  rw [emitTriangle_meshCount, emitTriangle_meshCount]

theorem emitSmoothTriangle_meshCount (x1 y1 z1 nx1 ny1 nz1 x2 y2 z2 nx2
    ny2 nz2 x3 y3 z3 nx3 ny3 nz3 r g b : ℚ) (m : MeshState) :
    (emitSmoothTriangle x1 y1 z1 nx1 ny1 nz1 x2 y2 z2 nx2 ny2 nz2
        x3 y3 z3 nx3 ny3 nz3 r g b m).meshCount = m.meshCount + 3 := by
  unfold emitSmoothTriangle
  split <;> rfl

/-- Count additivity for a fold whose body adds a fixed number of
vertices per element. -/
theorem foldl_meshCount_add {α : Type} (f : MeshState → α → MeshState)
    (k : ℕ) (h : ∀ m a, (f m a).meshCount = m.meshCount + k) :
    ∀ (l : List α) (m : MeshState),
      (l.foldl f m).meshCount = m.meshCount + k * l.length := by
  intro l
  induction l with
  | nil => intro m; simp
  | cons a l ih =>
    intro m
    rw [List.foldl_cons, ih, h, List.length_cons]
    ring

/-- C8 counterexample: `lathe` at center 0 with the two-point profile
`[(0,0),(0,1)]` — both radii zero — and 4 segments appends 12 vertices
(4 degenerate triangles), not zero. -/
theorem lathe_zero_radii_emits :
    (lathe fmTriv 0 0 0 [(0, 0), (0, 1)] 4 1 1 1 0 initMesh).meshCount = 12 ∧
      (lathe fmTriv 0 0 0 [(0, 0), (0, 1)] 4 1 1 1 0 initMesh).meshCount ≠
        initMesh.meshCount := by
  constructor
  · rfl
  · intro h
    simp only [initMesh] at h
    exact absurd h (by decide)

/-- C8 (amended): a `lathe` call with a two-point profile whose second
radius is zero — `[(r, y0), (0, y1)]` for *any* `r`, zero included —
appends exactly `S` triangles (`3 · S` vertices): one cap triangle per
angular segment, degenerate when `r = 0` as well. -/
theorem lathe_two_point_profile_count (fm : FloatModel)
    (cx cy cz r y0 y1 cr cg cb ao : ℚ) (segments : ℕ) (hS : segments ≠ 0)
    (m : MeshState) :
    (lathe fm cx cy cz [(r, y0), (0, y1)] segments cr cg cb ao m).meshCount =
      m.meshCount + 3 * segments := by
  have hseg : ∀ (m' : MeshState) (s : ℕ),
      (latheSegStep fm cx cy cz cr cg cb ao segments r (cy + y0) 0 (cy + y1)
          m' s).meshCount = m'.meshCount + 3 := by
    intro m' s
    unfold latheSegStep
    by_cases hr : r = 0
    · rw [if_pos hr, emitTriangle_meshCount]
    · rw [if_neg hr, if_pos rfl, emitTriangle_meshCount]
  unfold lathe
  simp only [List.length_cons, List.length_nil, hS, if_false, reduceIte]
  norm_num
  rw [show List.range 1 = [0] from rfl, List.foldl_cons, List.foldl_nil]
  unfold lathePairStep
  simp only [List.getD_cons_zero, List.getD_cons_succ]
  rw [foldl_meshCount_add _ 3 hseg (List.range segments) m,
    List.length_range, Nat.mul_comm]

/-- C8 witness: the amended count at a concrete instance — profile
`[(2, 0), (0, 1)]`, 4 segments — appends 12 vertices. -/
theorem lathe_two_point_profile_count_witness :
    (4 : ℕ) ≠ 0 ∧
      (lathe fmTriv 0 0 0 [(2, 0), (0, 1)] 4 1 1 1 0 initMesh).meshCount =
        initMesh.meshCount + 3 * 4 :=
  ⟨by decide,
    lathe_two_point_profile_count fmTriv 0 0 0 2 0 1 1 1 1 0 4 (by decide)
      initMesh⟩

/-! ### The edge table flags exactly the sign-change edges -/
theorem edgeTable_flag_correct : ∀ ci < 256, ∀ e < 12,
    (MC_EDGE_TABLE.getD ci 0).testBit e =
      ((ci.testBit (edgeVerts.getD e (0, 0)).1) !=
        (ci.testBit (edgeVerts.getD e (0, 0)).2)) := by decide

theorem edgeVerts_lt_8 : ∀ e < 12,
    (edgeVerts.getD e (0, 0)).1 < 8 ∧ (edgeVerts.getD e (0, 0)).2 < 8 := by
  decide

theorem cubeIndexOf_foldl_testBit (vals : ℕ → ℚ) :
    ∀ (l : List ℕ) (acc k : ℕ),
      ((l.foldl (fun acc c => if vals c < 0 then acc ||| (1 <<< c) else acc)
            acc).testBit k) =
        (acc.testBit k ||
          l.any fun c => decide (vals c < 0) && decide (c = k)) := by
  intro l
  induction l with
  | nil => intro acc k; simp
  | cons c l ih =>
    intro acc k
    rw [List.foldl_cons]
    by_cases hc : vals c < 0
    · simp only [hc, if_true, reduceIte]
      rw [ih]
      simp [Nat.testBit_or, Nat.one_shiftLeft, Nat.testBit_two_pow,
        List.any_cons, hc, Bool.or_assoc]
    · simp only [hc, if_false, reduceIte]
      rw [ih]
      simp [hc]

theorem cubeIndexOf_testBit (vals : ℕ → ℚ) (k : ℕ) (hk : k < 8) :
    (cubeIndexOf vals).testBit k = decide (vals k < 0) := by
  unfold cubeIndexOf
  rw [cubeIndexOf_foldl_testBit]
  simp only [Nat.zero_testBit, Bool.false_or]
  by_cases hv : vals k < 0
  · have hany :
        ((List.range 8).any fun c => decide (vals c < 0) && decide (c = k)) =
          true := by
      rw [List.any_eq_true]
      exact ⟨k, List.mem_range.mpr hk, by simp [hv]⟩
    rw [hany]
    simp [hv]
  · have hany :
        ((List.range 8).any fun c => decide (vals c < 0) && decide (c = k)) =
          false := by
      rw [List.any_eq_false]
      intro c hc
      simp only [Bool.and_eq_true, decide_eq_true_eq, not_and]
      intro hvc hck
      exact hv (hck ▸ hvc)
    rw [hany]
    simp [hv]

theorem cubeIndexOf_lt_256 (vals : ℕ → ℚ) : cubeIndexOf vals < 256 := by
  unfold cubeIndexOf
  have h : ∀ (l : List ℕ) (acc : ℕ), (∀ c ∈ l, c < 8) → acc < 256 →
      (l.foldl (fun acc c => if vals c < 0 then acc ||| (1 <<< c) else acc)
          acc) < 256 := by
    intro l
    induction l with
    | nil => intro acc _ ha; simpa using ha
    | cons c l ih =>
      intro acc hl ha
      rw [List.foldl_cons]
      refine ih _ (fun x hx => hl x (List.mem_cons_of_mem c hx)) ?_
      by_cases hc : vals c < 0
      · simp only [hc, if_true, reduceIte]
        have h2 : (1 <<< c) < 256 := by
          rw [Nat.one_shiftLeft]
          calc 2 ^ c ≤ 2 ^ 7 :=
                Nat.pow_le_pow_right (by norm_num)
                  (Nat.le_of_lt_succ (hl c (List.mem_cons_self c l)))
            _ < 256 := by norm_num
        exact Nat.or_lt_two_pow (n := 8) ha h2
      · simpa [hc] using ha
  exact h _ 0 (fun c hc => List.mem_range.mp hc) (by norm_num)

/-- C4: in `sdfMesh`, an edge flagged by `MC_EDGE_TABLE` for the cube
index of the cell's samples has exactly one negative endpoint sample,
the interpolation denominator `v0 − v1` is nonzero, and the parameter
`t = v0 / (v0 − v1)` lies in `[0, 1]`, so the interpolated vertex lies
on its grid edge between the two corners. -/
theorem sdfMesh_interp_param (vals : ℕ → ℚ) (e : ℕ) (he : e < 12)
    (hflag : (MC_EDGE_TABLE.getD (cubeIndexOf vals) 0).testBit e = true) :
    ((vals (edgeVerts.getD e (0, 0)).1 < 0 ↔
        ¬ vals (edgeVerts.getD e (0, 0)).2 < 0) ∧
      vals (edgeVerts.getD e (0, 0)).1 - vals (edgeVerts.getD e (0, 0)).2 ≠ 0 ∧
      0 ≤ vals (edgeVerts.getD e (0, 0)).1 /
          (vals (edgeVerts.getD e (0, 0)).1 - vals (edgeVerts.getD e (0, 0)).2) ∧
      vals (edgeVerts.getD e (0, 0)).1 /
          (vals (edgeVerts.getD e (0, 0)).1 - vals (edgeVerts.getD e (0, 0)).2) ≤
        1) := by
  set a := (edgeVerts.getD e (0, 0)).1 with ha
  set b := (edgeVerts.getD e (0, 0)).2 with hb
  have hab := edgeVerts_lt_8 e he
  have hflag2 := edgeTable_flag_correct (cubeIndexOf vals)
    (cubeIndexOf_lt_256 vals) e he
  rw [hflag, cubeIndexOf_testBit vals a hab.1,
    cubeIndexOf_testBit vals b hab.2] at hflag2
  have hsign : (vals a < 0) ↔ ¬ (vals b < 0) := by
    by_cases h0 : vals a < 0 <;> by_cases h1 : vals b < 0 <;>
      simp [h0, h1] at hflag2 ⊢
  refine ⟨hsign, ?_⟩
  by_cases h0 : vals a < 0
  · have h1 : 0 ≤ vals b := le_of_not_lt (hsign.mp h0)
    have hd : vals a - vals b < 0 := by linarith
    have hrw : vals a / (vals a - vals b) = -vals a / (vals b - vals a) := by
      rw [← neg_div_neg_eq]
      ring_nf
    refine ⟨ne_of_lt hd, ?_, ?_⟩
    · rw [hrw]
      exact div_nonneg (by linarith) (by linarith)
    · rw [hrw, div_le_one (by linarith)]
      linarith
  · have h1 : vals b < 0 := by
      by_contra h1
      exact h0 (hsign.mpr h1)
    have h0' : 0 ≤ vals a := le_of_not_lt h0
    have hd : 0 < vals a - vals b := by linarith
    refine ⟨ne_of_gt hd, div_nonneg h0' (le_of_lt hd), ?_⟩
    rw [div_le_one hd]
    linarith

/-- C4 witness: the cell sampling `-1` at corner 0 and `1` elsewhere has
cube index 1; its flagged edge 0 satisfies the interpolation bounds. -/
theorem sdfMesh_interp_param_witness :
    (0 : ℕ) < 12 ∧
      (MC_EDGE_TABLE.getD
          (cubeIndexOf fun c => if c = 0 then (-1 : ℚ) else 1) 0).testBit 0 =
        true ∧
      (((fun c => if c = 0 then (-1 : ℚ) else 1) (edgeVerts.getD 0 (0, 0)).1 < 0 ↔
          ¬ (fun c => if c = 0 then (-1 : ℚ) else 1)
              (edgeVerts.getD 0 (0, 0)).2 < 0) ∧
        (fun c => if c = 0 then (-1 : ℚ) else 1) (edgeVerts.getD 0 (0, 0)).1 -
            (fun c => if c = 0 then (-1 : ℚ) else 1)
              (edgeVerts.getD 0 (0, 0)).2 ≠ 0 ∧
        0 ≤ (fun c => if c = 0 then (-1 : ℚ) else 1) (edgeVerts.getD 0 (0, 0)).1 /
            ((fun c => if c = 0 then (-1 : ℚ) else 1)
                (edgeVerts.getD 0 (0, 0)).1 -
              (fun c => if c = 0 then (-1 : ℚ) else 1)
                (edgeVerts.getD 0 (0, 0)).2) ∧
        (fun c => if c = 0 then (-1 : ℚ) else 1) (edgeVerts.getD 0 (0, 0)).1 /
            ((fun c => if c = 0 then (-1 : ℚ) else 1)
                (edgeVerts.getD 0 (0, 0)).1 -
              (fun c => if c = 0 then (-1 : ℚ) else 1)
                (edgeVerts.getD 0 (0, 0)).2) ≤ 1) :=
  ⟨by norm_num, by decide,
    sdfMesh_interp_param (fun c => if c = 0 then (-1 : ℚ) else 1) 0
      (by norm_num) (by decide)⟩

/-! ### List indexing lemmas -/
theorem getD_set_self (l : List ℚ) (i : ℕ) (v : ℚ) (h : i < l.length) :
    (l.set i v).getD i 0 = v := by
  induction l generalizing i with
  | nil => simp at h
  | cons a l ih =>
    cases i with
    | zero => rfl
    | succ i => exact ih i (by simpa using h)

theorem getD_set_ne (l : List ℚ) (i j : ℕ) (v : ℚ) (h : i ≠ j) :
    (l.set i v).getD j 0 = l.getD j 0 := by
  induction l generalizing i j with
  | nil => rfl
  | cons a l ih =>
    cases i with
    | zero =>
      cases j with
      | zero => exact absurd rfl h
      | succ j => rfl
    | succ i =>
      cases j with
      | zero => rfl
      | succ j => exact ih i j (fun hh => h (by rw [hh]))

theorem getD_append_left (l l2 : List ℚ) (j : ℕ) (h : j < l.length) :
    (l ++ l2).getD j 0 = l.getD j 0 := by
  induction l generalizing j with
  | nil => simp at h
  | cons a l ih =>
    cases j with
    | zero => rfl
    | succ j => exact ih j (by simpa using h)

theorem writeSeq_getD_lt :
    ∀ (vs l : List ℚ) (i j : ℕ), j < i →
      (writeSeq l i vs).getD j 0 = l.getD j 0 := by
  intro vs
  induction vs with
  | nil => intro l i j _; rfl
  | cons v vs ih =>
    intro l i j h
    rw [writeSeq, ih (l.set i v) (i + 1) j (by omega)]
    exact getD_set_ne l i j v (by omega)

theorem writeSeq_getD_at :
    ∀ (vs l : List ℚ) (i k : ℕ), k < vs.length → i + vs.length ≤ l.length →
      (writeSeq l i vs).getD (i + k) 0 = vs.getD k 0 := by
  intro vs
  induction vs with
  | nil => intro l i k h _; simp at h
  | cons v vs ih =>
    intro l i k hk hlen
    rw [writeSeq]
    cases k with
    | zero =>
      have h0 : i + 0 = i := rfl
      rw [h0, writeSeq_getD_lt vs (l.set i v) (i + 1) i (by omega)]
      exact getD_set_self l i v (by simp only [List.length_cons] at hlen; omega)
    | succ k =>
      have harith : i + (k + 1) = (i + 1) + k := by omega
      rw [harith,
        ih (l.set i v) (i + 1) k (by simpa using hk)
          (by simp only [List.length_set, List.length_cons] at hlen ⊢; omega)]
      rfl

theorem padTo_length (l : List ℚ) (n : ℕ) (h : l.length ≤ n) :
    (padTo l n).length = n := by
  unfold padTo
  rw [List.length_append, List.length_replicate]
  omega

theorem padTo_getD (l : List ℚ) (n j : ℕ) (h : j < l.length) :
    (padTo l n).getD j 0 = l.getD j 0 :=
  getD_append_left l _ j h

/-! ### Invariant preservation by the emitters -/
theorem meshWF_growMesh (m : MeshState) (h : MeshWF m) :
    MeshWF (growMesh m) := by
  obtain ⟨h1, h2, h3, h4, h5, h6⟩ := h
  refine ⟨?_, ?_, ?_, by simp [growMesh]; omega, h5, by simp [growMesh]; omega⟩
  · show (padTo m.meshPositions (m.meshCap * 2 * 3)).length = m.meshCap * 2 * 3
    exact padTo_length _ _ (by omega)
  · show (padTo m.meshColors (m.meshCap * 2 * 3)).length = m.meshCap * 2 * 3
    exact padTo_length _ _ (by omega)
  · show (padTo m.meshNormals (m.meshCap * 2 * 3)).length = m.meshCap * 2 * 3
    exact padTo_length _ _ (by omega)

/-- The pre-write state of an emit (after the conditional grow) is
well-formed and has room for one more triangle. -/
theorem meshWF_emit_core (m : MeshState) (h : MeshWF m) :
    MeshWF (if m.meshCap < m.meshCount + 3 then growMesh m else m) ∧
      (if m.meshCap < m.meshCount + 3 then growMesh m else m).meshCount + 3 ≤
        (if m.meshCap < m.meshCount + 3 then growMesh m else m).meshCap ∧
      (if m.meshCap < m.meshCount + 3 then growMesh m else m).meshCount =
        m.meshCount := by
  split
  · refine ⟨meshWF_growMesh m h, ?_, rfl⟩
    obtain ⟨_, _, _, h4, _, h6⟩ := h
    show m.meshCount + 3 ≤ m.meshCap * 2
    omega
  · rename_i hge
    exact ⟨h, by omega, rfl⟩

theorem meshWF_emitTriangle (x1 y1 z1 x2 y2 z2 x3 y3 z3 r g b : ℚ)
    (m : MeshState) (h : MeshWF m) :
    MeshWF (emitTriangle x1 y1 z1 x2 y2 z2 x3 y3 z3 r g b m) := by
  obtain ⟨⟨h1, h2, h3, h4, h5, h6⟩, hle, hcnt⟩ := meshWF_emit_core m h
  set m1 := if m.meshCap < m.meshCount + 3 then growMesh m else m with hm1
  unfold emitTriangle
  rw [← hm1]
  refine ⟨?_, ?_, h3, ?_, ?_, h6⟩
  · show (writeSeq _ _ _).length = _
    rw [writeSeq_length]
    exact h1
  · show (writeSeq _ _ _).length = _
    rw [writeSeq_length]
    exact h2
  · show m1.meshCount + 3 ≤ m1.meshCap
    omega
  · show (m1.meshCount + 3) % 3 = 0
    omega

theorem meshWF_emitQuad (x1 y1 z1 x2 y2 z2 x3 y3 z3 x4 y4 z4 r g b : ℚ)
    (m : MeshState) (h : MeshWF m) :
    MeshWF (emitQuad x1 y1 z1 x2 y2 z2 x3 y3 z3 x4 y4 z4 r g b m) := by
  unfold emitQuad
  exact meshWF_emitTriangle _ _ _ _ _ _ _ _ _ _ _ _ _
    (meshWF_emitTriangle _ _ _ _ _ _ _ _ _ _ _ _ _ h)

theorem meshWF_emitSmoothTriangle (x1 y1 z1 nx1 ny1 nz1 x2 y2 z2 nx2 ny2
    nz2 x3 y3 z3 nx3 ny3 nz3 r g b : ℚ) (m : MeshState) (h : MeshWF m) :
    MeshWF (emitSmoothTriangle x1 y1 z1 nx1 ny1 nz1 x2 y2 z2 nx2 ny2 nz2
      x3 y3 z3 nx3 ny3 nz3 r g b m) := by
  obtain ⟨⟨h1, h2, h3, h4, h5, h6⟩, hle, hcnt⟩ := meshWF_emit_core m h
  set m1 := if m.meshCap < m.meshCount + 3 then growMesh m else m with hm1
  unfold emitSmoothTriangle
  rw [← hm1]
  refine ⟨?_, ?_, ?_, ?_, ?_, h6⟩
  · show (writeSeq _ _ _).length = _
    rw [writeSeq_length]
    exact h1
  · show (writeSeq _ _ _).length = _
    rw [writeSeq_length]
    exact h2
  · show (writeSeq _ _ _).length = _
    rw [writeSeq_length]
    exact h3
  · show m1.meshCount + 3 ≤ m1.meshCap
    omega
  · show (m1.meshCount + 3) % 3 = 0
    omega

/-- How `_emitSmoothTriangle` transforms the per-vertex normals: old
vertices keep theirs, the three new vertices get the argument normals. -/
theorem emitSmoothTriangle_vtxNormal (x1 y1 z1 nx1 ny1 nz1 x2 y2 z2 nx2
    ny2 nz2 x3 y3 z3 nx3 ny3 nz3 r g b : ℚ) (m : MeshState) (h : MeshWF m) :
    (∀ j < m.meshCount,
        vtxNormal (emitSmoothTriangle x1 y1 z1 nx1 ny1 nz1 x2 y2 z2 nx2
          ny2 nz2 x3 y3 z3 nx3 ny3 nz3 r g b m) j = vtxNormal m j) ∧
      vtxNormal (emitSmoothTriangle x1 y1 z1 nx1 ny1 nz1 x2 y2 z2 nx2 ny2
          nz2 x3 y3 z3 nx3 ny3 nz3 r g b m) m.meshCount = (nx1, ny1, nz1) ∧
      vtxNormal (emitSmoothTriangle x1 y1 z1 nx1 ny1 nz1 x2 y2 z2 nx2 ny2
          nz2 x3 y3 z3 nx3 ny3 nz3 r g b m) (m.meshCount + 1) =
        (nx2, ny2, nz2) ∧
      vtxNormal (emitSmoothTriangle x1 y1 z1 nx1 ny1 nz1 x2 y2 z2 nx2 ny2
          nz2 x3 y3 z3 nx3 ny3 nz3 r g b m) (m.meshCount + 2) =
        (nx3, ny3, nz3) := by
  obtain ⟨⟨h1, h2, h3, h4, h5, h6⟩, hle, hcnt⟩ := meshWF_emit_core m h
  set m1 := if m.meshCap < m.meshCount + 3 then growMesh m else m with hm1
  have hm1norm : ∀ j', j' < m.meshNormals.length →
      m1.meshNormals.getD j' 0 = m.meshNormals.getD j' 0 := by
    intro j' hj'
    rw [hm1]
    split
    · exact padTo_getD _ _ _ hj'
    · rfl
  have hroom : m1.meshCount * 3 + 9 ≤ m1.meshNormals.length := by
    rw [h3]
    omega
  have hwrite := fun k hk =>
    writeSeq_getD_at [nx1, ny1, nz1, nx2, ny2, nz2, nx3, ny3, nz3]
      m1.meshNormals (m1.meshCount * 3) k hk (by simpa using hroom)
  have hcount : m.meshCount ≤ m.meshCap * 3 := by
    obtain ⟨_, _, _, h4', _, _⟩ := h
    omega
  have hmlen : m.meshNormals.length = m.meshCap * 3 := h.2.2.1
  have hcap : m.meshCount ≤ m.meshCap := h.2.2.2.1
  refine ⟨?_, ?_, ?_, ?_⟩
  · intro j hj
    unfold emitSmoothTriangle vtxNormal
    rw [← hm1]
    simp only []
    have hlt0 : 3 * j < m1.meshCount * 3 := by rw [hcnt]; omega
    have hlt1 : 3 * j + 1 < m1.meshCount * 3 := by rw [hcnt]; omega
    have hlt2 : 3 * j + 2 < m1.meshCount * 3 := by rw [hcnt]; omega
    have hl0 : 3 * j < m.meshNormals.length := by rw [hmlen]; omega
    have hl1 : 3 * j + 1 < m.meshNormals.length := by rw [hmlen]; omega
    have hl2 : 3 * j + 2 < m.meshNormals.length := by rw [hmlen]; omega
    rw [writeSeq_getD_lt _ _ _ _ hlt0, writeSeq_getD_lt _ _ _ _ hlt1,
      writeSeq_getD_lt _ _ _ _ hlt2, hm1norm _ hl0, hm1norm _ hl1,
      hm1norm _ hl2]
  · unfold emitSmoothTriangle vtxNormal
    rw [← hm1]
    simp only []
    have e0 : 3 * m.meshCount = m1.meshCount * 3 + 0 := by rw [hcnt]; ring
    have e1 : 3 * m.meshCount + 1 = m1.meshCount * 3 + 1 := by rw [hcnt]; ring
    have e2 : 3 * m.meshCount + 2 = m1.meshCount * 3 + 2 := by rw [hcnt]; ring
    rw [e2, e1, e0, hwrite 0 (by norm_num), hwrite 1 (by norm_num),
      hwrite 2 (by norm_num)]
    rfl
  · unfold emitSmoothTriangle vtxNormal
    rw [← hm1]
    simp only []
    have e0 : 3 * (m.meshCount + 1) = m1.meshCount * 3 + 3 := by rw [hcnt]; ring
    have e1 : 3 * (m.meshCount + 1) + 1 = m1.meshCount * 3 + 4 := by
      rw [hcnt]; ring
    have e2 : 3 * (m.meshCount + 1) + 2 = m1.meshCount * 3 + 5 := by
      rw [hcnt]; ring
    rw [e2, e1, e0, hwrite 3 (by norm_num), hwrite 4 (by norm_num),
      hwrite 5 (by norm_num)]
    rfl
  · unfold emitSmoothTriangle vtxNormal
    rw [← hm1]
    simp only []
    have e0 : 3 * (m.meshCount + 2) = m1.meshCount * 3 + 6 := by rw [hcnt]; ring
    have e1 : 3 * (m.meshCount + 2) + 1 = m1.meshCount * 3 + 7 := by
      rw [hcnt]; ring
    have e2 : 3 * (m.meshCount + 2) + 2 = m1.meshCount * 3 + 8 := by
      rw [hcnt]; ring
    rw [e2, e1, e0, hwrite 6 (by norm_num), hwrite 7 (by norm_num),
      hwrite 8 (by norm_num)]
    rfl

/-- `_emitSmoothTriangle` with `NormOK` argument normals preserves the
combined invariant. -/
theorem meshInv_emitSmoothTriangle (x1 y1 z1 nx1 ny1 nz1 x2 y2 z2 nx2 ny2
    nz2 x3 y3 z3 nx3 ny3 nz3 r g b : ℚ) (m : MeshState)
    (h : MeshWF m ∧ NormalsOK m) (hn1 : NormOK (nx1, ny1, nz1))
    (hn2 : NormOK (nx2, ny2, nz2)) (hn3 : NormOK (nx3, ny3, nz3)) :
    MeshWF (emitSmoothTriangle x1 y1 z1 nx1 ny1 nz1 x2 y2 z2 nx2 ny2 nz2
        x3 y3 z3 nx3 ny3 nz3 r g b m) ∧
      NormalsOK (emitSmoothTriangle x1 y1 z1 nx1 ny1 nz1 x2 y2 z2 nx2 ny2
        nz2 x3 y3 z3 nx3 ny3 nz3 r g b m) := by
  obtain ⟨hwf, hok⟩ := h
  refine ⟨meshWF_emitSmoothTriangle _ _ _ _ _ _ _ _ _ _ _ _ _ _ _ _ _ _ _ _
    _ m hwf, ?_⟩
  obtain ⟨hold, hnew1, hnew2, hnew3⟩ :=
    emitSmoothTriangle_vtxNormal x1 y1 z1 nx1 ny1 nz1 x2 y2 z2 nx2 ny2 nz2
      x3 y3 z3 nx3 ny3 nz3 r g b m hwf
  intro j hj
  rw [emitSmoothTriangle_meshCount] at hj
  rcases Nat.lt_or_ge j m.meshCount with hlt | hge
  · rw [hold j hlt]
    exact hok j hlt
  · have : j = m.meshCount ∨ j = m.meshCount + 1 ∨ j = m.meshCount + 2 := by
      omega
    rcases this with rfl | rfl | rfl
    · rwa [hnew1]
    · rwa [hnew2]
    · rwa [hnew3]

/-- The normal `sdfMesh` computes for an interpolated vertex is the zero
vector (when the central-difference gradient vanishes, since the worker
replaces the zero *length* by 1) or approximately unit. -/
theorem sdfGradNormal_normOK (fm : FloatModel) (H : SqrtAccurate fm)
    (f : ℚ → ℚ → ℚ → ℚ) (eps vx vy vz : ℚ) :
    NormOK (sdfGradNormal fm f eps vx vy vz) := by
  unfold sdfGradNormal NormOK
  dsimp only
  set gnx := f (vx + eps) vy vz - f (vx - eps) vy vz with hgnx
  set gny := f vx (vy + eps) vz - f vx (vy - eps) vz with hgny
  set gnz := f vx vy (vz + eps) - f vx vy (vz - eps) with hgnz
  set s := gnx * gnx + gny * gny + gnz * gnz with hs
  have hs0 : 0 ≤ s := by
    rw [hs]
    nlinarith [mul_self_nonneg gnx, mul_self_nonneg gny, mul_self_nonneg gnz]
  rcases eq_or_lt_of_le hs0 with hz | hp
  · left
    have hx : gnx = 0 := by nlinarith [mul_self_nonneg gny, mul_self_nonneg gnz]
    have hy : gny = 0 := by nlinarith [mul_self_nonneg gnx, mul_self_nonneg gnz]
    have hzz : gnz = 0 := by
      nlinarith [mul_self_nonneg gnx, mul_self_nonneg gny]
    simp [hx, hy, hzz]
  · right
    obtain ⟨hl, hu⟩ := H s hp
    have hgne : fm.sqrt s ≠ 0 := by
      intro h0
      rw [h0] at hl
      nlinarith
    have hglen : sqrtOr1 fm s = fm.sqrt s := by
      unfold sqrtOr1
      rw [if_neg hgne]
    have hg2 : 0 < fm.sqrt s * fm.sqrt s := by nlinarith
    rw [hglen]
    have hnorm : gnx / fm.sqrt s * (gnx / fm.sqrt s) +
        gny / fm.sqrt s * (gny / fm.sqrt s) +
        gnz / fm.sqrt s * (gnz / fm.sqrt s) =
          s / (fm.sqrt s * fm.sqrt s) := by
      rw [hs]
      field_simp
    rw [hnorm]
    constructor
    · rw [le_div_iff hg2]
      nlinarith
    · rw [div_le_iff hg2]
      nlinarith

/-- The `verts` array built by `cellStep` only holds `NormOK` normals. -/
theorem cellStep_verts_normOK (fm : FloatModel) (H : SqrtAccurate fm)
    (f : ℚ → ℚ → ℚ → ℚ) (bMin : Q3) (dx dy dz eps : ℚ) (ix iy iz : ℕ)
    (vals : ℕ → ℚ) (ci : ℕ) :
    ∀ (e : ℕ) (p : Q3 × Q3),
      (if (MC_EDGE_TABLE.getD ci 0).testBit e then
          some (cellVert fm f bMin dx dy dz eps ix iy iz vals e)
        else none) = some p →
      NormOK p.2 := by
  intro e p hp
  split at hp
  · cases hp
    unfold cellVert
    exact sdfGradNormal_normOK fm H f eps _ _ _
  · cases hp

theorem lookupVert_eq_some (verts : ℕ → Option (Q3 × Q3)) (a : ℤ)
    (p : Q3 × Q3) (h : lookupVert verts a = some p) : verts a.toNat = some p := by
  unfold lookupVert at h
  split at h
  · cases h
  · exact h

/-- `triLoop` preserves the invariant when every available edge vertex
has a `NormOK` normal. -/
theorem triLoop_inv (colorFn : ℚ → ℚ → ℚ → Q3)
    (verts : ℕ → Option (Q3 × Q3))
    (hv : ∀ (e : ℕ) (p : Q3 × Q3), verts e = some p → NormOK p.2) :
    ∀ (tris : List ℤ) (m : MeshState),
      MeshWF m ∧ NormalsOK m →
        MeshWF (triLoop colorFn verts tris m) ∧
          NormalsOK (triLoop colorFn verts tris m)
  | [], m, hm => by simpa [triLoop] using hm
  | [a], m, hm => by simpa [triLoop] using hm
  | [a, b], m, hm => by simpa [triLoop] using hm
  | a :: b :: c :: rest, m, hm => by
    rw [triLoop]
    split
    · exact hm
    · refine triLoop_inv colorFn verts hv rest _ ?_
      rcases hla : lookupVert verts a with _ | va
      · simpa [hla] using hm
      · rcases hlb : lookupVert verts b with _ | vb
        · simpa [hla, hlb] using hm
        · rcases hlc : lookupVert verts c with _ | vc
          · simpa [hla, hlb, hlc] using hm
          · simp only [hla, hlb, hlc]
            have hva := hv _ _ (lookupVert_eq_some verts a va hla)
            have hvb := hv _ _ (lookupVert_eq_some verts b vb hlb)
            have hvc := hv _ _ (lookupVert_eq_some verts c vc hlc)
            refine meshInv_emitSmoothTriangle _ _ _ _ _ _ _ _ _ _ _ _ _ _ _
              _ _ _ _ _ _ m hm ?_ ?_ ?_
            · have hpair : (va.2.1, va.2.2.1, va.2.2.2) = va.2 := rfl
              rw [hpair]
              exact hva
            · have hpair : (vb.2.1, vb.2.2.1, vb.2.2.2) = vb.2 := rfl
              rw [hpair]
              exact hvb
            · have hpair : (vc.2.1, vc.2.2.1, vc.2.2.2) = vc.2 := rfl
              rw [hpair]
              exact hvc

/-- A fold preserves any invariant its body preserves. -/
theorem foldl_inv {α : Type} (P : MeshState → Prop)
    (f : MeshState → α → MeshState) (hf : ∀ m a, P m → P (f m a)) :
    ∀ (l : List α) (m : MeshState), P m → P (l.foldl f m) := by
  intro l
  induction l with
  | nil => intro m hm; exact hm
  | cons a l ih =>
    intro m hm
    rw [List.foldl_cons]
    exact ih _ (hf m a hm)

theorem cellStep_inv (fm : FloatModel) (H : SqrtAccurate fm)
    (f : ℚ → ℚ → ℚ → ℚ) (colorFn : ℚ → ℚ → ℚ → Q3) (bMin : Q3)
    (dx dy dz eps : ℚ) (ix iy iz : ℕ) (m : MeshState)
    (hm : MeshWF m ∧ NormalsOK m) :
    MeshWF (cellStep fm f colorFn bMin dx dy dz eps ix iy iz m) ∧
      NormalsOK (cellStep fm f colorFn bMin dx dy dz eps ix iy iz m) := by
  unfold cellStep
  dsimp only
  split
  · exact hm
  · exact triLoop_inv colorFn _
      (cellStep_verts_normOK fm H f bMin dx dy dz eps ix iy iz _ _) _ m hm

theorem sdfMesh_inv (fm : FloatModel) (H : SqrtAccurate fm)
    (f : ℚ → ℚ → ℚ → ℚ) (colorFn : ℚ → ℚ → ℚ → Q3) (bMin bMax : Q3)
    (res : ℕ) (m : MeshState) (hm : MeshWF m ∧ NormalsOK m) :
    MeshWF (sdfMesh fm f colorFn bMin bMax res m) ∧
      NormalsOK (sdfMesh fm f colorFn bMin bMax res m) := by
  unfold sdfMesh
  refine foldl_inv (fun st => MeshWF st ∧ NormalsOK st) _ ?_ _ m hm
  intro m' iz hm'
  refine foldl_inv (fun st => MeshWF st ∧ NormalsOK st) _ ?_ _ m' hm'
  intro m'' iy hm''
  refine foldl_inv (fun st => MeshWF st ∧ NormalsOK st) _ ?_ _ m'' hm''
  intro m''' ix hm'''
  exact cellStep_inv fm H f colorFn bMin _ _ _ _ ix iy iz m''' hm'''

theorem initMesh_WF : MeshWF initMesh ∧ NormalsOK initMesh := by
  constructor
  · refine ⟨?_, ?_, ?_, ?_, ?_, ?_⟩
    · show (List.replicate 900000 (0 : ℚ)).length = 300000 * 3
      rw [List.length_replicate]
    · show (List.replicate 900000 (0 : ℚ)).length = 300000 * 3
      rw [List.length_replicate]
    · show (List.replicate 900000 (0 : ℚ)).length = 300000 * 3
      rw [List.length_replicate]
    · show (0 : ℕ) ≤ 300000
      omega
    · show (0 : ℕ) % 3 = 0
      rfl
    · show (3 : ℕ) ≤ 300000
      omega
  · intro j hj
    exact absurd hj (by show ¬ j < 0; omega)

/-- C5 (amended): starting from the worker's fresh buffers, every
per-vertex normal emitted by `sdfMesh` is either *the zero vector* (when
the central-difference gradient vanishes — the worker substitutes 1 for
the zero length, not a unit vector) or approximately unit, with squared
norm within `[1/4, 9/4]`, provided `fm.sqrt` is accurate to within a
factor `3/2` (IEEE `Math.sqrt` is). -/
theorem sdfMesh_normals_unit_or_zero (fm : FloatModel)
    (H : SqrtAccurate fm) (f : ℚ → ℚ → ℚ → ℚ)
    (colorFn : ℚ → ℚ → ℚ → Q3) (bMin bMax : Q3) (res : ℕ) (j : ℕ)
    (hj : j < (sdfMesh fm f colorFn bMin bMax res initMesh).meshCount) :
    NormOK (vtxNormal (sdfMesh fm f colorFn bMin bMax res initMesh) j) :=
  (sdfMesh_inv fm H f colorFn bMin bMax res initMesh initMesh_WF).2 j hj

theorem sqrtQ_accurate_nat (m : ℕ) (hm : 4 ≤ m) :
    Nat.sqrt m * Nat.sqrt m ≤ m ∧ 4 * m ≤ 9 * (Nat.sqrt m * Nat.sqrt m) := by
  refine ⟨Nat.sqrt_le m, ?_⟩
  have h1 : m < (Nat.sqrt m + 1) * (Nat.sqrt m + 1) := Nat.lt_succ_sqrt m
  have h2 : 2 ≤ Nat.sqrt m := by
    have := Nat.sqrt_le_sqrt hm
    simpa [show Nat.sqrt 4 = 2 from by norm_num] using this
  nlinarith

theorem sqrtQ_accurate : ∀ q : ℚ, 0 < q →
    4 / 9 * q ≤ sqrtQ q * sqrtQ q ∧ sqrtQ q * sqrtQ q ≤ 4 * q := by
  intro q hq
  unfold sqrtQ
  rw [if_neg (not_le.mpr hq)]
  have hd : 0 < (q.den : ℚ) := by exact_mod_cast q.pos
  have hnum : 0 < q.num := Rat.num_pos.mpr hq
  have hn : 0 < q.num.toNat := by omega
  set n := q.num.toNat with hn'
  set d := q.den with hd'
  have hm4 : 4 ≤ n * d * 4 ^ 20 := by
    have h1 : 1 ≤ n * d := Nat.one_le_iff_ne_zero.mpr (by positivity)
    calc (4 : ℕ) ≤ 4 ^ 20 := by norm_num
      _ = 1 * 4 ^ 20 := by ring
      _ ≤ n * d * 4 ^ 20 := Nat.mul_le_mul_right _ h1
  obtain ⟨hup, hlo⟩ := sqrtQ_accurate_nat (n * d * 4 ^ 20) hm4
  set s := Nat.sqrt (n * d * 4 ^ 20) with hs'
  have hupQ : (s : ℚ) * s ≤ (n : ℚ) * d * 4 ^ 20 := by exact_mod_cast hup
  have hloQ : 4 * ((n : ℚ) * d * 4 ^ 20) ≤ 9 * ((s : ℚ) * s) := by
    exact_mod_cast hlo
  have hqeq : q = (n : ℚ) / (d : ℚ) := by
    rw [← Rat.num_div_den q]
    congr 1
    rw [hn']
    exact_mod_cast (Int.toNat_of_nonneg (le_of_lt hnum)).symm
  have hden : (0 : ℚ) < (d : ℚ) * 2 ^ 20 := by positivity
  rw [hqeq]
  have h420 : ((4 : ℚ)) ^ 20 = 2 ^ 20 * 2 ^ 20 := by norm_num
  constructor
  · rw [div_mul_div_comm, div_mul_div_comm,
      div_le_div_iff (by positivity) (by positivity)]
    push_cast
    nlinarith [hloQ, hd, h420]
  · rw [div_mul_div_comm, ← mul_div_assoc,
      div_le_div_iff (by positivity) hd]
    push_cast
    nlinarith [hupQ, hd, h420]

theorem fmGood_accurate : SqrtAccurate fmGood := sqrtQ_accurate

/-- C5 counterexample: marching `fZeroGrad` over the unit cell emits a
triangle whose first vertex normal is the zero vector — norm 0, not a
unit vector and far outside `[0.5, 1.5]`.  The worker's `|| 1` guard
replaces the zero gradient *length*, so the zero vector itself is
emitted. -/
theorem sdfMesh_emits_zero_normal :
    (sdfMesh fmGood fZeroGrad (fun _ _ _ => (1, 1, 1)) (0, 0, 0) (1, 1, 1) 1
        initMesh).meshCount = 3 ∧
      vtxNormal
          (sdfMesh fmGood fZeroGrad (fun _ _ _ => (1, 1, 1)) (0, 0, 0)
            (1, 1, 1) 1 initMesh) 0 = (0, 0, 0) := by
  constructor
  · with_unfolding_all rfl
  · with_unfolding_all rfl

/-- C5 witness: the amended statement applied at the concrete
`fZeroGrad` run, whose first emitted vertex exists. -/
theorem sdfMesh_normals_unit_or_zero_witness :
    SqrtAccurate fmGood ∧
      0 < (sdfMesh fmGood fZeroGrad (fun _ _ _ => (1, 1, 1)) (0, 0, 0)
          (1, 1, 1) 1 initMesh).meshCount ∧
      NormOK (vtxNormal
        (sdfMesh fmGood fZeroGrad (fun _ _ _ => (1, 1, 1)) (0, 0, 0)
          (1, 1, 1) 1 initMesh) 0) :=
  ⟨fmGood_accurate,
    by rw [show (sdfMesh fmGood fZeroGrad (fun _ _ _ => (1, 1, 1)) (0, 0, 0)
          (1, 1, 1) 1 initMesh).meshCount = 3 from by with_unfolding_all rfl]
       norm_num,
    sdfMesh_normals_unit_or_zero fmGood fmGood_accurate fZeroGrad
      (fun _ _ _ => (1, 1, 1)) (0, 0, 0) (1, 1, 1) 1 0
      (by rw [show (sdfMesh fmGood fZeroGrad (fun _ _ _ => (1, 1, 1)) (0, 0, 0)
            (1, 1, 1) 1 initMesh).meshCount = 3 from by with_unfolding_all rfl]
          norm_num)⟩

/-- C3: the worker's output is a function of the message alone — two
executions of `onmessage` with the same `{code, sceneBounds, seed}`,
from *any* two prior worker states, produce identical `meshPositions`,
`meshColors`, `meshNormals`, `meshVertexCount` and `hasCustomNormals`:
the prologue overwrites every mutable global (PRNG seed and mesh
buffers) from the message, and the PRNG, the value noise and every
geometry generator are functions of that state. -/
theorem workerOnMessage_deterministic (fm : FloatModel) (msg : WorkerMsg)
    (st1 st2 : WorkerState) :
    workerOnMessage fm msg st1 = workerOnMessage fm msg st2 := rfl

/-- C10: `_seed = seed || 42` makes seed 0 indistinguishable from seed
42 at the worker interface: for every program, scene bounds and prior
state, the two messages produce identical output. -/
theorem workerOnMessage_seed_zero_eq_seed_42 (fm : FloatModel)
    (prog : List SbCmd) (sb : SceneBoundsQ) (st : WorkerState) :
    workerOnMessage fm ⟨prog, 0, sb⟩ st =
      workerOnMessage fm ⟨prog, 42, sb⟩ st := by
  unfold workerOnMessage workerInitGlobals
  norm_num

/-! ### Buffer well-formedness through every generator (C6) -/
/-- A fold over any state type preserves any invariant its body
preserves. -/
theorem foldl_pres {β α : Type} (P : β → Prop) (f : β → α → β)
    (hf : ∀ b a, P b → P (f b a)) :
    ∀ (l : List α) (b : β), P b → P (l.foldl f b) := by
  intro l
  induction l with
  | nil => intro b hb; exact hb
  | cons a l ih =>
    intro b hb
    rw [List.foldl_cons]
    exact ih _ (hf b a hb)

theorem meshWF_box (cx cy cz sx sy sz r g b : ℚ) (m : MeshState)
    (h : MeshWF m) : MeshWF (box cx cy cz sx sy sz r g b m) := by
  unfold box
  dsimp only
  apply meshWF_emitQuad
  apply meshWF_emitQuad
  apply meshWF_emitQuad
  apply meshWF_emitQuad
  apply meshWF_emitQuad
  apply meshWF_emitQuad
  exact h

theorem meshWF_latheSegStep (fm : FloatModel)
    (cx cy cz r g b angleOffset : ℚ) (S : ℕ) (r0 y0 r1 y1 : ℚ)
    (m : MeshState) (s : ℕ) (h : MeshWF m) :
    MeshWF (latheSegStep fm cx cy cz r g b angleOffset S r0 y0 r1 y1 m s) := by
  unfold latheSegStep
  dsimp only
  split
  · apply meshWF_emitTriangle
    exact h
  · split
    · apply meshWF_emitTriangle
      exact h
    · apply meshWF_emitQuad
      exact h

theorem meshWF_lathePairStep (fm : FloatModel)
    (cx cy cz r g b angleOffset : ℚ) (S : ℕ) (profile : List (ℚ × ℚ))
    (m : MeshState) (p : ℕ) (h : MeshWF m) :
    MeshWF (lathePairStep fm cx cy cz r g b angleOffset S profile m p) := by
  unfold lathePairStep
  dsimp only
  exact foldl_pres MeshWF _
    (fun m' s hm' =>
      meshWF_latheSegStep fm cx cy cz r g b angleOffset S _ _ _ _ m' s hm')
    _ m h

theorem meshWF_lathe (fm : FloatModel) (cx cy cz : ℚ)
    (profile : List (ℚ × ℚ)) (segments : ℕ) (r g b angleOffset : ℚ)
    (m : MeshState) (h : MeshWF m) :
    MeshWF (lathe fm cx cy cz profile segments r g b angleOffset m) := by
  unfold lathe
  dsimp only
  split
  · exact h
  · exact foldl_pres MeshWF _
      (fun m' p hm' =>
        meshWF_lathePairStep fm cx cy cz r g b angleOffset _ profile m' p hm')
      _ m h

theorem meshWF_extrudePath (fm : FloatModel) (profile : List (ℚ × ℚ))
    (path : List Q3) (closed : Bool) (r g b : ℚ) (m : MeshState)
    (h : MeshWF m) :
    MeshWF (extrudePath fm profile path closed r g b m) := by
  unfold extrudePath
  dsimp only
  split
  · exact h
  · refine foldl_pres MeshWF _ ?_ _ m h
    intro m' i hm'
    refine foldl_pres MeshWF _ ?_ _ m' hm'
    intro m'' j hm''
    apply meshWF_emitQuad
    exact hm''

theorem meshWF_grid (x0 z0 x1 z1 : ℚ) (resX resZ : ℕ)
    (heightFn : ℚ → ℚ → ℚ) (colorFn : Option (ℚ → ℚ → Q3))
    (m : MeshState) (h : MeshWF m) :
    MeshWF (grid x0 z0 x1 z1 resX resZ heightFn colorFn m) := by
  unfold grid
  dsimp only
  refine foldl_pres MeshWF _ ?_ _ m h
  intro m' i hm'
  refine foldl_pres MeshWF _ ?_ _ m' hm'
  intro m'' j hm''
  apply meshWF_emitQuad
  exact hm''

theorem meshWF_triLoop (colorFn : ℚ → ℚ → ℚ → Q3)
    (verts : ℕ → Option (Q3 × Q3)) :
    ∀ (tris : List ℤ) (m : MeshState), MeshWF m →
      MeshWF (triLoop colorFn verts tris m)
  | [], m, hm => by simpa [triLoop] using hm
  | [a], m, hm => by simpa [triLoop] using hm
  | [a, b], m, hm => by simpa [triLoop] using hm
  | a :: b :: c :: rest, m, hm => by
    rw [triLoop]
    split
    · exact hm
    · refine meshWF_triLoop colorFn verts rest _ ?_
      rcases hla : lookupVert verts a with _ | va
      · simpa [hla] using hm
      · rcases hlb : lookupVert verts b with _ | vb
        · simpa [hla, hlb] using hm
        · rcases hlc : lookupVert verts c with _ | vc
          · simpa [hla, hlb, hlc] using hm
          · simp only [hla, hlb, hlc]
            apply meshWF_emitSmoothTriangle
            exact hm

theorem meshWF_cellStep (fm : FloatModel) (f : ℚ → ℚ → ℚ → ℚ)
    (colorFn : ℚ → ℚ → ℚ → Q3) (bMin : Q3) (dx dy dz eps : ℚ)
    (ix iy iz : ℕ) (m : MeshState) (h : MeshWF m) :
    MeshWF (cellStep fm f colorFn bMin dx dy dz eps ix iy iz m) := by
  unfold cellStep
  dsimp only
  split
  · exact h
  · exact meshWF_triLoop colorFn _ _ m h

theorem meshWF_sdfMesh (fm : FloatModel) (f : ℚ → ℚ → ℚ → ℚ)
    (colorFn : ℚ → ℚ → ℚ → Q3) (bMin bMax : Q3) (res : ℕ)
    (m : MeshState) (h : MeshWF m) :
    MeshWF (sdfMesh fm f colorFn bMin bMax res m) := by
  unfold sdfMesh
  refine foldl_pres MeshWF _ ?_ _ m h
  intro m' iz hm'
  refine foldl_pres MeshWF _ ?_ _ m' hm'
  intro m'' iy hm''
  refine foldl_pres MeshWF _ ?_ _ m'' hm''
  intro m''' ix hm'''
  exact meshWF_cellStep fm f colorFn bMin _ _ _ _ ix iy iz m''' hm'''

theorem meshWF_sphereMesh (fm : FloatModel) (cx cy cz radius r g b : ℚ)
    (res : ℕ) (m : MeshState) (h : MeshWF m) :
    MeshWF (sphereMesh fm cx cy cz radius r g b res m) := by
  unfold sphereMesh
  dsimp only
  apply meshWF_sdfMesh
  exact h

theorem meshWF_boxMesh (fm : FloatModel) (cx cy cz sx sy sz r g b : ℚ)
    (res : ℕ) (m : MeshState) (h : MeshWF m) :
    MeshWF (boxMesh fm cx cy cz sx sy sz r g b res m) := by
  unfold boxMesh
  dsimp only
  apply meshWF_sdfMesh
  exact h

theorem meshWF_cylinderMesh (fm : FloatModel)
    (cx cy cz radius height r g b : ℚ) (res : ℕ) (m : MeshState)
    (h : MeshWF m) :
    MeshWF (cylinderMesh fm cx cy cz radius height r g b res m) := by
  unfold cylinderMesh
  dsimp only
  apply meshWF_sdfMesh
  exact h

theorem meshWF_torusMesh (fm : FloatModel)
    (cx cy cz majorR minorR r g b : ℚ) (res : ℕ) (m : MeshState)
    (h : MeshWF m) :
    MeshWF (torusMesh fm cx cy cz majorR minorR r g b res m) := by
  unfold torusMesh
  dsimp only
  apply meshWF_sdfMesh
  exact h

theorem meshWF_applyCmd (fm : FloatModel) (sb : SceneBoundsQ) (c : SbCmd)
    (st : WorkerState) (h : MeshWF st.mesh) :
    MeshWF ((applyCmd fm sb st c).mesh) := by
  cases c with
  | emitTriangle a1 a2 a3 a4 a5 a6 a7 a8 a9 a10 a11 a12 =>
    dsimp only [applyCmd]
    apply meshWF_emitTriangle
    exact h
  | emitQuad a1 a2 a3 a4 a5 a6 a7 a8 a9 a10 a11 a12 a13 a14 a15 =>
    dsimp only [applyCmd]
    apply meshWF_emitQuad
    exact h
  | emitSmoothTriangle a1 a2 a3 a4 a5 a6 a7 a8 a9 a10 a11 a12 a13 a14 a15
      a16 a17 a18 a19 a20 a21 =>
    dsimp only [applyCmd]
    apply meshWF_emitSmoothTriangle
    exact h
  | box a1 a2 a3 a4 a5 a6 a7 a8 a9 =>
    dsimp only [applyCmd]
    apply meshWF_box
    exact h
  | lathe a1 a2 a3 a4 a5 a6 a7 a8 a9 =>
    dsimp only [applyCmd]
    apply meshWF_lathe
    exact h
  | extrudePath a1 a2 a3 a4 a5 a6 =>
    dsimp only [applyCmd]
    apply meshWF_extrudePath
    exact h
  | grid a1 a2 a3 a4 a5 a6 a7 a8 =>
    dsimp only [applyCmd]
    apply meshWF_grid
    exact h
  | sdfMesh a1 a2 a3 a4 a5 =>
    dsimp only [applyCmd]
    apply meshWF_sdfMesh
    exact h
  | sphereMesh a1 a2 a3 a4 a5 a6 a7 a8 =>
    dsimp only [applyCmd]
    apply meshWF_sphereMesh
    exact h
  | boxMesh a1 a2 a3 a4 a5 a6 a7 a8 a9 a10 =>
    dsimp only [applyCmd]
    apply meshWF_boxMesh
    exact h
  | cylinderMesh a1 a2 a3 a4 a5 a6 a7 a8 a9 =>
    dsimp only [applyCmd]
    apply meshWF_cylinderMesh
    exact h
  | torusMesh a1 a2 a3 a4 a5 a6 a7 a8 a9 =>
    dsimp only [applyCmd]
    apply meshWF_torusMesh
    exact h

theorem meshWF_runProg (fm : FloatModel) (sb : SceneBoundsQ)
    (prog : List SbCmd) (st : WorkerState) (h : MeshWF st.mesh) :
    MeshWF ((runProg fm sb prog st).mesh) := by
  unfold runProg
  exact foldl_pres (fun st' => MeshWF st'.mesh) (applyCmd fm sb)
    (fun st' c hst' => meshWF_applyCmd fm sb c st' hst') prog st h

/-- C6: after any sequence of emitter and generator calls starting from
the worker's initial state, the drained mesh has `vertex_count % 3 = 0`
and the drained positions, colors and normals arrays all have length
exactly `vertex_count * 3`. -/
theorem worker_drained_mesh_invariant (fm : FloatModel) (msg : WorkerMsg)
    (st : WorkerState) :
    (workerOnMessage fm msg st).meshVertexCount % 3 = 0 ∧
      (workerOnMessage fm msg st).meshPositions.length =
        (workerOnMessage fm msg st).meshVertexCount * 3 ∧
      (workerOnMessage fm msg st).meshColors.length =
        (workerOnMessage fm msg st).meshVertexCount * 3 ∧
      ((runProg fm msg.sceneBounds msg.prog
            (workerInitGlobals msg st)).mesh.meshNormals.take
          ((runProg fm msg.sceneBounds msg.prog
              (workerInitGlobals msg st)).mesh.meshCount * 3)).length =
        (workerOnMessage fm msg st).meshVertexCount * 3 ∧
      (∀ l, (workerOnMessage fm msg st).meshNormals = some l →
        l.length = (workerOnMessage fm msg st).meshVertexCount * 3) := by
  have hwf : MeshWF
      (runProg fm msg.sceneBounds msg.prog (workerInitGlobals msg st)).mesh :=
    meshWF_runProg fm msg.sceneBounds msg.prog (workerInitGlobals msg st)
      (show MeshWF initMesh from initMesh_WF.1)
  obtain ⟨h1, h2, h3, h4, h5, h6⟩ := hwf
  unfold workerOnMessage drainOutput
  dsimp only
  refine ⟨h5, ?_, ?_, ?_, ?_⟩
  · rw [List.length_take]
    omega
  · rw [List.length_take]
    omega
  · rw [List.length_take]
    omega
  · intro l hl
    split at hl
    · cases hl
      rw [List.length_take]
      omega
    · cases hl

end Autoscene

